import Mathlib

/-!
# NDI discovery and receiver: a shallow embedding

Source files embedded here:
* `app/src/main/cpp/ndi_discovery.h`, `ndi_discovery.cpp` : `NDISourceInfo`, `NDIDiscovery`
* `app/src/main/cpp/ndi_receiver.h`, `ndi_receiver.cpp` : `NDIFrame`, `NDIReceiver`
* `app/src/main/cpp/Processing.NDI.Lib.h` : the SDK types

Conventions.
* A `std::string` is a Lean `String`; its characters are read through `String.data`.
  Only ASCII bytes are inspected by the code (`::tolower`, `find(':')`, `find("hx")`),
  and in UTF-8 an ASCII byte never occurs inside a multi-byte character, so searching
  characters and searching bytes agree.
* A pointer is an `Option`: `none` is `nullptr`.  An SDK handle is `Option Nat`.
* The SDK is an external collaborator.  Every answer it gives to a member function is an
  explicit argument of that function, and every call made to it is recorded, in program
  order, in the list of `Event`s the function returns.
* `std::atomic<bool>` fields are `Bool` fields; operations are sequential (one caller).
  A `std::thread` member is the `Bool` that `joinable()` would return.
* Log statements are not modelled.
-/

namespace ndi

/-! ## `std::string` helpers -/

/-- The function `::tolower` in the C locale: `A`..`Z` map to `a`..`z`, everything else is kept. -/
def tolower (c : Char) : Char :=
  if 'A' ≤ c ∧ c ≤ 'Z' then Char.ofNat (c.toNat + 32) else c

/-- The member `std::string::find(const char*)`: the first position at which `pat` occurs in `s`,
`none` standing for `npos`. -/
def find : List Char → List Char → Option Nat
  | [], pat => if pat.isPrefixOf [] then some 0 else none
  | c :: s, pat =>
    if pat.isPrefixOf (c :: s) then some 0 else (find s pat).map (· + 1)

/-- The member `std::string::find(char)`: the first position of `ch` in `s`, `none` for `npos`. -/
def find_char : List Char → Char → Option Nat
  | [], _ => none
  | c :: s, ch => if c = ch then some 0 else (find_char s ch).map (· + 1)

/-- The member `std::string::substr(pos, n)` for `pos` within the string. -/
def substr (s : List Char) (pos n : Nat) : List Char :=
  (s.drop pos).take n

/-! ## Data model (`ndi_discovery.h`, `ndi_receiver.h`, `Processing.NDI.Lib.h`) -/

/-- The enum `NDISourceType`. -/
inductive NDISourceType where
  | NDI
  | NDI_HX2
  | NDI_HX3
  deriving DecidableEq, Repr

/-- The struct `NDISourceInfo`; the defaults are those of its default constructor. -/
structure NDISourceInfo where
  name : String := ""
  machine_name : String := ""
  url_address : String := ""
  source_type : NDISourceType := NDISourceType.NDI
  is_online : Bool := true
  last_seen_time : Int := 0
  deriving DecidableEq, Repr

/-- The struct `NDIlib_source_t`: two nullable C strings. -/
structure NDIlib_source_t where
  p_ndi_name : Option String
  p_url_address : Option String
  deriving DecidableEq, Repr

/-- The struct `NDIlib_video_frame_v2_t`; `frame_rate_N / frame_rate_D` is kept as the two
integers, the payload pointer as an optional buffer identifier. -/
structure NDIlib_video_frame_v2_t where
  xres : Int
  yres : Int
  frame_rate_N : Int
  frame_rate_D : Int
  timestamp : Int
  line_stride_in_bytes : Int
  p_data : Option Nat
  deriving DecidableEq, Repr

/-- The struct `NDIlib_audio_frame_v2_t`. -/
structure NDIlib_audio_frame_v2_t where
  sample_rate : Int
  no_channels : Int
  no_samples : Int
  timestamp : Int
  p_data : Option Nat
  deriving DecidableEq, Repr

/-- The struct `NDIlib_metadata_frame_t`. -/
structure NDIlib_metadata_frame_t where
  timestamp : Int
  p_data : Option String
  deriving DecidableEq, Repr

/-- The struct `NDIFrame`.  The `float frame_rate` is carried as the pair of integers it is
computed from (numerator, denominator); the defaults are those of the struct. -/
structure NDIFrame where
  width : Int := 0
  height : Int := 0
  frame_rate : Int × Int := (0, 1)
  timestamp : Int := 0
  data_size : Nat := 0
  data : Option Nat := none
  deriving DecidableEq, Repr

/-- What one call of `NDIlib_recv_capture_v2` hands back: the returned frame type together with
the out-parameter it filled.  `other` is any return value outside the four enumerators (the
`default:` label of the switch). -/
inductive Captured where
  | none
  | video (v : NDIlib_video_frame_v2_t)
  | audio (a : NDIlib_audio_frame_v2_t)
  | metadata (m : NDIlib_metadata_frame_t)
  | other (code : Int)
  deriving DecidableEq, Repr

/-- Everything a member function does to the outside world, in program order: SDK calls,
invocation of the consumer callback, thread creation and join, sleeps, and the stores to the
`is_receiving_` / `is_scanning_` flags (recorded so that orderings can be read off a trace). -/
inductive Event where
  | NDIlib_initialize
  | NDIlib_destroy
  | NDIlib_find_create_v2 (show_local_sources : Bool)
  | NDIlib_find_destroy (h : Nat)
  | NDIlib_find_wait_for_sources (h : Option Nat) (timeout_in_ms : Nat)
  | NDIlib_find_get_current_sources (h : Option Nat)
  | NDIlib_recv_create_v3 (p_ndi_name p_url_address : String) (color_format bandwidth : Int)
      (allow_video_fields : Bool)
  | NDIlib_recv_destroy (h : Nat)
  | NDIlib_recv_capture_v2 (h : Nat) (timeout_in_ms : Nat)
  | NDIlib_recv_free_video_v2 (h : Nat) (v : NDIlib_video_frame_v2_t)
  | NDIlib_recv_free_audio_v2 (h : Nat) (a : NDIlib_audio_frame_v2_t)
  | NDIlib_recv_free_metadata (h : Nat) (m : NDIlib_metadata_frame_t)
  | frame_callback (f : NDIFrame)
  | store_is_receiving (b : Bool)
  | store_is_scanning (b : Bool)
  | thread_start
  | thread_join
  | sleep_for (ms : Nat)
  | NDIlib_version
  deriving DecidableEq, Repr

/-! ## `NDIDiscovery` (`ndi_discovery.cpp`) -/

/-- The private members of `NDIDiscovery`; the defaults are the state after the constructor. -/
structure NDIDiscovery where
  finder_instance_ : Option Nat := none
  is_initialized_ : Bool := false
  is_scanning_ : Bool := false
  scan_thread_ : Bool := false
  deriving DecidableEq, Repr

/-- The method `NDIDiscovery::determineSourceType`. -/
def determineSourceType (source_name : String) : NDISourceType :=
  let lower_name := source_name.data.map tolower
  if (find lower_name "hx3".data).isSome then
    NDISourceType.NDI_HX3
  else if (find lower_name "hx2".data).isSome || (find lower_name "hx".data).isSome then
    NDISourceType.NDI_HX2
  else
    NDISourceType.NDI

/-- The body of the conversion loop of `NDIDiscovery::scanSources` for the entry `ndi_sources[i]`:
the `NDISourceInfo` that is pushed to the result. -/
def convertSource (src : NDIlib_source_t) : NDISourceInfo :=
  let source_info : NDISourceInfo := {}
  let source_info :=
    match src.p_ndi_name with
    | some n => { source_info with name := n }
    | none => source_info
  let source_info :=
    match src.p_url_address with
    | some a =>
      let source_info := { source_info with url_address := a }
      let url := source_info.url_address
      match find_char url.data ':' with
      | some colon_pos => { source_info with machine_name := ⟨substr url.data 0 colon_pos⟩ }
      | none => { source_info with machine_name := url }
    | none => source_info
  { source_info with source_type := determineSourceType source_info.name }

/-- The three hard-coded descriptors of the `NDI_MOCK_IMPLEMENTATION` branch of `scanSources`. -/
def mockSources : List NDISourceInfo :=
  [ { name := "模擬 OBS PGM", machine_name := "OBS-PC", url_address := "192.168.1.21:5960",
      source_type := NDISourceType.NDI },
    { name := "模擬 OBS PREVIEW", machine_name := "OBS-PC", url_address := "192.168.1.21:5961",
      source_type := NDISourceType.NDI_HX2 },
    { name := "測試攝影機", machine_name := "Test-Machine", url_address := "192.168.1.100:5960",
      source_type := NDISourceType.NDI } ]

/-- The method `NDIDiscovery::initialize`.  `mock` says whether `NDI_MOCK_IMPLEMENTATION` is
defined; `rt` is what `NDIlib_initialize()` returns and `created` what `NDIlib_find_create_v2`
returns.  Result: the returned `bool`, the state afterwards, the calls made. -/
def NDIDiscovery.initialize (mock : Bool) (s : NDIDiscovery) (rt : Bool) (created : Option Nat) :
    Bool × NDIDiscovery × List Event :=
  if mock then
    (true, { s with is_initialized_ := true }, [])
  else if !rt then
    (false, s, [ Event.NDIlib_initialize])
  else
    let s := { s with finder_instance_ := created }
    match s.finder_instance_ with
    | none =>
      (false, s, [ Event.NDIlib_initialize, Event.NDIlib_find_create_v2 true, Event.NDIlib_destroy])
    | some _ =>
      (true, { s with is_initialized_ := true },
        [ Event.NDIlib_initialize, Event.NDIlib_find_create_v2 true])

/-- The method `NDIDiscovery::scanSources`.  `wait` is what `NDIlib_find_wait_for_sources`
returns; `cur` is what `NDIlib_find_get_current_sources` returns: `none` for a null array,
otherwise the array, whose length is the reported `num_sources`.  The `int timeout_ms` is
passed to the SDK as an `unsigned int`.  The method does not change the state. -/
def NDIDiscovery.scanSources (mock : Bool) (s : NDIDiscovery) (timeout_ms : Int) (wait : Bool)
    (cur : Option (List NDIlib_source_t)) : List NDISourceInfo × List Event :=
  if !s.is_initialized_ then
    ([], [])
  else if mock then
    (mockSources, [])
  else
    let ev_wait := Event.NDIlib_find_wait_for_sources s.finder_instance_ (timeout_ms % 2 ^ 32).toNat
    if !wait then
      ([], [ev_wait])
    else
      let ev_get := Event.NDIlib_find_get_current_sources s.finder_instance_
      match cur with
      | none => ([], [ev_wait, ev_get])
      | some ndi_sources =>
        if ndi_sources.length = 0 then
          ([], [ev_wait, ev_get])
        else
          (ndi_sources.map convertSource, [ev_wait, ev_get])

/-- The method `NDIDiscovery::startContinuousScanning`: the flag check, the store and the thread
creation.  The body of the thread only calls `scanSources` and the callback and touches no member. -/
def NDIDiscovery.startContinuousScanning (s : NDIDiscovery) : NDIDiscovery × List Event :=
  if s.is_scanning_ then
    (s, [])
  else
    ({ s with is_scanning_ := true, scan_thread_ := true },
      [Event.store_is_scanning true, Event.thread_start])

/-- The method `NDIDiscovery::stopContinuousScanning`. -/
def NDIDiscovery.stopContinuousScanning (s : NDIDiscovery) : NDIDiscovery × List Event :=
  if !s.is_scanning_ then
    (s, [])
  else
    let s := { s with is_scanning_ := false }
    if s.scan_thread_ then
      ({ s with scan_thread_ := false }, [Event.store_is_scanning false, Event.thread_join])
    else
      (s, [Event.store_is_scanning false])

/-- The method `NDIDiscovery::cleanup`. -/
def NDIDiscovery.cleanup (mock : Bool) (s : NDIDiscovery) : NDIDiscovery × List Event :=
  let r := s.stopContinuousScanning
  let s := r.1
  let ev := r.2
  if mock then
    ({ s with is_initialized_ := false }, ev)
  else
    let r :=
      match s.finder_instance_ with
      | some h => ({ s with finder_instance_ := none }, [Event.NDIlib_find_destroy h])
      | none => (s, [])
    let s := r.1
    let ev := ev ++ r.2
    let ev := if s.is_initialized_ then ev ++ [Event.NDIlib_destroy] else ev
    ({ s with is_initialized_ := false }, ev)

/-! ## `NDIReceiver` (`ndi_receiver.cpp`), the build without `NDI_MOCK_IMPLEMENTATION` -/

/-- The private members of `NDIReceiver`; the defaults are the state after the constructor. -/
structure NDIReceiver where
  receiver_instance_ : Option Nat := none
  is_initialized_ : Bool := false
  is_connected_ : Bool := false
  is_receiving_ : Bool := false
  current_source_ : NDISourceInfo := {}
  receive_thread_ : Bool := false
  deriving DecidableEq, Repr

/-- The method `NDIReceiver::initialize`; `rt` is what `NDIlib_initialize()` returns. -/
def NDIReceiver.initialize (s : NDIReceiver) (rt : Bool) : Bool × NDIReceiver × List Event :=
  if !rt then
    (false, s, [ Event.NDIlib_initialize])
  else
    (true, { s with is_initialized_ := true }, [ Event.NDIlib_initialize])

/-- The method `NDIReceiver::stopReceiving`. -/
def NDIReceiver.stopReceiving (s : NDIReceiver) : NDIReceiver × List Event :=
  if !s.is_receiving_ then
    (s, [])
  else
    let s := { s with is_receiving_ := false }
    if s.receive_thread_ then
      ({ s with receive_thread_ := false }, [Event.store_is_receiving false, Event.thread_join])
    else
      (s, [Event.store_is_receiving false])

/-- The method `NDIReceiver::disconnect`. -/
def NDIReceiver.disconnect (s : NDIReceiver) : NDIReceiver × List Event :=
  if !s.is_connected_ then
    (s, [])
  else
    let r := s.stopReceiving
    let s := r.1
    let ev := r.2
    let r :=
      match s.receiver_instance_ with
      | some h => ({ s with receiver_instance_ := none }, [Event.NDIlib_recv_destroy h])
      | none => (s, [])
    let s := r.1
    let ev := ev ++ r.2
    ({ s with is_connected_ := false, current_source_ := {} }, ev)

/-- The method `NDIReceiver::connect`; `created` is what `NDIlib_recv_create_v3` returns.  The
create call is recorded with the name and address it is given, the colour format
`NDIlib_recv_color_format_UYVY_RGBA = 3`, the bandwidth `NDIlib_recv_bandwidth_highest = 100`
and `allow_video_fields = true`. -/
def NDIReceiver.connect (s : NDIReceiver) (source_info : NDISourceInfo) (created : Option Nat) :
    Bool × NDIReceiver × List Event :=
  if !s.is_initialized_ then
    (false, s, [])
  else
    let r := if s.receiver_instance_.isSome then s.disconnect else (s, [])
    let s := r.1
    let ev := r.2 ++
      [Event.NDIlib_recv_create_v3 source_info.name source_info.url_address 3 100 true]
    let s := { s with receiver_instance_ := created }
    match s.receiver_instance_ with
    | none => (false, s, ev)
    | some _ => (true, { s with current_source_ := source_info, is_connected_ := true }, ev)

/-- The method `NDIReceiver::startReceiving`: the two guards, the store to `is_receiving_` and the
creation of the thread.  The thread body is `receiveLoop` below. -/
def NDIReceiver.startReceiving (s : NDIReceiver) : NDIReceiver × List Event :=
  if !s.is_connected_ then
    (s, [])
  else if s.is_receiving_ then
    (s, [])
  else
    ({ s with is_receiving_ := true, receive_thread_ := true },
      [Event.store_is_receiving true, Event.thread_start])

/-- The method `NDIReceiver::getCurrentSource`. -/
def NDIReceiver.getCurrentSource (s : NDIReceiver) : NDISourceInfo := s.current_source_

/-- The method `NDIReceiver::isConnected`. -/
def NDIReceiver.isConnected (s : NDIReceiver) : Bool := s.is_connected_

/-- The method `NDIReceiver::isReceiving`. -/
def NDIReceiver.isReceiving (s : NDIReceiver) : Bool := s.is_receiving_

/-- The method `NDIReceiver::cleanup`. -/
def NDIReceiver.cleanup (s : NDIReceiver) : NDIReceiver × List Event :=
  let r := if s.is_receiving_ then s.stopReceiving else (s, [])
  let s := r.1
  let ev := r.2
  let r := if s.is_connected_ then s.disconnect else (s, [])
  let s := r.1
  let ev := ev ++ r.2
  ({ s with is_initialized_ := false }, ev)

/-! ### The receive loop (the thread body of `startReceiving`) -/

/-- How a call of the consumer callback ends: it returns, or it throws a `std::exception`, which
the `catch` of the loop handles. -/
inductive CallbackResult where
  | returned
  | threw
  deriving DecidableEq, Repr

/-- The result of arithmetic on `int`, as a two's complement 32-bit value. -/
def wrapInt (x : Int) : Int := (x + 2 ^ 31) % 2 ^ 32 - 2 ^ 31

/-- Conversion of an `int` to a `size_t` of `size_bits` bits. -/
def toSizeT (size_bits : Nat) (x : Int) : Nat := (x % 2 ^ size_bits).toNat

/-- The `NDIFrame` built in the `NDIlib_frame_type_video` case.  The member `data` is not
assigned there and keeps its default. -/
def makeFrame (size_bits : Nat) (video_frame : NDIlib_video_frame_v2_t) : NDIFrame :=
  let frame : NDIFrame := {}
  let frame := { frame with width := video_frame.xres }
  let frame := { frame with height := video_frame.yres }
  let frame := { frame with frame_rate := (video_frame.frame_rate_N, video_frame.frame_rate_D) }
  let frame := { frame with timestamp := video_frame.timestamp }
  { frame with
    data_size := toSizeT size_bits (wrapInt (video_frame.line_stride_in_bytes * video_frame.yres)) }

/-- One pass of the `try` block of the loop on connection `h`, `c` being what the capture call
hands back.  An empty `std::function` is `none`. -/
def receiveIteration (size_bits : Nat) (h : Nat)
    (frame_callback : Option (NDIFrame → CallbackResult)) (c : Captured) : List Event :=
  Event.NDIlib_recv_capture_v2 h 100 ::
    match c with
    | Captured.video video_frame =>
      let frame := makeFrame size_bits video_frame
      match frame_callback with
      | some cb =>
        match cb frame with
        | CallbackResult.returned =>
          [Event.frame_callback frame, Event.NDIlib_recv_free_video_v2 h video_frame]
        | CallbackResult.threw =>
          [Event.frame_callback frame, Event.sleep_for 100]
      | none => [Event.NDIlib_recv_free_video_v2 h video_frame]
    | Captured.audio audio_frame => [Event.NDIlib_recv_free_audio_v2 h audio_frame]
    | Captured.metadata metadata_frame => [Event.NDIlib_recv_free_metadata h metadata_frame]
    | Captured.none => []
    | Captured.other _ => []

/-- The loop `while (is_receiving_ && receiver_instance_)`, run on the successive results of the
capture call.  The loop itself writes no member, so the condition is read from `s` at every
pass; the list ends where the caller stops the loop. -/
def receiveLoop (size_bits : Nat) (s : NDIReceiver)
    (frame_callback : Option (NDIFrame → CallbackResult)) : List Captured → List Event
  | [] => []
  | c :: rest =>
    match s.is_receiving_, s.receiver_instance_ with
    | true, some h =>
      receiveIteration size_bits h frame_callback c ++ receiveLoop size_bits s frame_callback rest
    | _, _ => []

/-! ## Reachable receiver states, and readings of a trace -/

/-- The receiver states reachable from a freshly constructed `NDIReceiver` by the public
operations, whatever the SDK answers. -/
inductive NDIReceiver.Reachable : NDIReceiver → Prop where
  | fresh : NDIReceiver.Reachable {}
  | step_init (s : NDIReceiver) (rt : Bool) :
      NDIReceiver.Reachable s → NDIReceiver.Reachable ( NDIReceiver.initialize s rt).2.1
  | step_connect (s : NDIReceiver) (source_info : NDISourceInfo) (created : Option Nat) :
      NDIReceiver.Reachable s → NDIReceiver.Reachable (NDIReceiver.connect s source_info created).2.1
  | step_disconnect (s : NDIReceiver) :
      NDIReceiver.Reachable s → NDIReceiver.Reachable (NDIReceiver.disconnect s).1
  | step_startReceiving (s : NDIReceiver) :
      NDIReceiver.Reachable s → NDIReceiver.Reachable (NDIReceiver.startReceiving s).1
  | step_stopReceiving (s : NDIReceiver) :
      NDIReceiver.Reachable s → NDIReceiver.Reachable (NDIReceiver.stopReceiving s).1
  | step_cleanup (s : NDIReceiver) :
      NDIReceiver.Reachable s → NDIReceiver.Reachable (NDIReceiver.cleanup s).1

/-- The consistency of the receiver members: a handle is held exactly when connected, receiving
implies connected, connected implies initialized, the current source is the default one when
not connected, and the thread is joinable exactly when receiving. -/
def NDIReceiver.Inv (s : NDIReceiver) : Prop :=
  s.receiver_instance_.isSome = s.is_connected_ ∧
  (s.is_receiving_ = true → s.is_connected_ = true) ∧
  (s.is_connected_ = true → s.is_initialized_ = true) ∧
  (s.is_connected_ = false → s.current_source_ = {}) ∧
  s.receive_thread_ = s.is_receiving_

/-- Reads a trace from left to right, starting with the given value of `is_receiving_` and the
given liveness of the worker thread, and says whether some `NDIlib_recv_destroy` happens while
the flag is set or while the worker has not been joined. -/
def destroyWhileReceiving : Bool → Bool → List Event → Bool
  | _, _, [] => false
  | _, live, Event.store_is_receiving b :: rest => destroyWhileReceiving b live rest
  | flag, _, Event.thread_start :: rest => destroyWhileReceiving flag true rest
  | flag, _, Event.thread_join :: rest => destroyWhileReceiving flag false rest
  | flag, live, Event.NDIlib_recv_destroy _ :: rest =>
    flag || live || destroyWhileReceiving flag live rest
  | flag, live, _ :: rest => destroyWhileReceiving flag live rest

/-- The events of `stopReceiving` on a state whose `is_receiving_` is `receiving` and whose
thread is joinable: the store of `false` followed by the join. -/
def stopEvents (receiving : Bool) : List Event :=
  if receiving then [Event.store_is_receiving false, Event.thread_join] else []

/-- The frames handed to the consumer callback along a trace, in order. -/
def callbackFrames (ev : List Event) : List NDIFrame :=
  ev.filterMap (fun e => match e with
    | Event.frame_callback f => some f
    | _ => none)

/-- The video frames given back through `NDIlib_recv_free_video_v2` along a trace, in order. -/
def releasedVideo (ev : List Event) : List NDIlib_video_frame_v2_t :=
  ev.filterMap (fun e => match e with
    | Event.NDIlib_recv_free_video_v2 _ v => some v
    | _ => none)

/-- The audio frames given back through `NDIlib_recv_free_audio_v2` along a trace, in order. -/
def releasedAudio (ev : List Event) : List NDIlib_audio_frame_v2_t :=
  ev.filterMap (fun e => match e with
    | Event.NDIlib_recv_free_audio_v2 _ a => some a
    | _ => none)

/-- The metadata frames given back through `NDIlib_recv_free_metadata` along a trace, in order. -/
def releasedMetadata (ev : List Event) : List NDIlib_metadata_frame_t :=
  ev.filterMap (fun e => match e with
    | Event.NDIlib_recv_free_metadata _ m => some m
    | _ => none)

/-- Whether an event is a call of `NDIlib_recv_capture_v2`. -/
def isCapture : Event → Bool
  | Event.NDIlib_recv_capture_v2 _ _ => true
  | _ => false

/-- The trace without its `NDIlib_recv_capture_v2` entries: callbacks, releases and sleeps. -/
def withoutCaptures (ev : List Event) : List Event :=
  ev.filter (fun e => !isCapture e)

/-- The number of `NDIlib_recv_capture_v2` calls along a trace. -/
def captureCount (ev : List Event) : Nat :=
  ev.countP isCapture

/-- The video units of a sequence of capture results, in order. -/
def videoUnits (units : List Captured) : List NDIlib_video_frame_v2_t :=
  units.filterMap (fun c => match c with
    | Captured.video v => some v
    | _ => none)

/-- The audio units of a sequence of capture results, in order. -/
def audioUnits (units : List Captured) : List NDIlib_audio_frame_v2_t :=
  units.filterMap (fun c => match c with
    | Captured.audio a => some a
    | _ => none)

/-- The metadata units of a sequence of capture results, in order. -/
def metadataUnits (units : List Captured) : List NDIlib_metadata_frame_t :=
  units.filterMap (fun c => match c with
    | Captured.metadata m => some m
    | _ => none)

/-- What the specification asks of the loop for one pulled unit: a video unit is delivered to
the callback and then released, an audio or metadata unit is released without a callback, and
nothing happens for `none` (or an unknown type). -/
def deliveryOf (size_bits : Nat) (h : Nat) : Captured → List Event
  | Captured.video v =>
    [Event.frame_callback (makeFrame size_bits v), Event.NDIlib_recv_free_video_v2 h v]
  | Captured.audio a => [Event.NDIlib_recv_free_audio_v2 h a]
  | Captured.metadata m => [Event.NDIlib_recv_free_metadata h m]
  | Captured.none => []
  | Captured.other _ => []

/-! ## Sequences of public operations -/

/-- The method `NDIDiscovery::getVersion`; `version` is what `NDIlib_version()` returns. -/
def NDIDiscovery.getVersion (mock : Bool) (version : Option String) : String × List Event :=
  if mock then
    ("Mock NDI Discovery v1.0", [])
  else
    match version with
    | some v => (v, [Event.NDIlib_version])
    | none => ("Unknown", [Event.NDIlib_version])

/-- One call of a public operation of `NDIReceiver`, with the SDK answers it consumes. -/
inductive ReceiverOp where
  | init (rt : Bool)
  | connect (source_info : NDISourceInfo) (created : Option Nat)
  | disconnect
  | startReceiving
  | stopReceiving
  | cleanup
  deriving DecidableEq, Repr

/-- One call of a public operation of `NDIDiscovery`, with the SDK answers it consumes. -/
inductive DiscoveryOp where
  | init (rt : Bool) (created : Option Nat)
  | scanSources (timeout_ms : Int) (wait : Bool) (cur : Option (List NDIlib_source_t))
  | startContinuousScanning
  | stopContinuousScanning
  | getVersion (version : Option String)
  | cleanup
  deriving DecidableEq, Repr

/-- The state after one operation of the receiver and the events of that operation. -/
def NDIReceiver.step (s : NDIReceiver) : ReceiverOp → NDIReceiver × List Event
  | ReceiverOp.init rt => ( NDIReceiver.initialize s rt).2
  | ReceiverOp.connect source_info created => (NDIReceiver.connect s source_info created).2
  | ReceiverOp.disconnect => NDIReceiver.disconnect s
  | ReceiverOp.startReceiving => NDIReceiver.startReceiving s
  | ReceiverOp.stopReceiving => NDIReceiver.stopReceiving s
  | ReceiverOp.cleanup => NDIReceiver.cleanup s

/-- The state after a sequence of operations of the receiver, and all events in order. -/
def NDIReceiver.run (s : NDIReceiver) : List ReceiverOp → NDIReceiver × List Event
  | [] => (s, [])
  | op :: ops =>
    ((NDIReceiver.run (NDIReceiver.step s op).1 ops).1,
      (NDIReceiver.step s op).2 ++ (NDIReceiver.run (NDIReceiver.step s op).1 ops).2)

/-- The state after one operation of the discovery and the events of that operation. -/
def NDIDiscovery.step (mock : Bool) (s : NDIDiscovery) : DiscoveryOp → NDIDiscovery × List Event
  | DiscoveryOp.init rt created => ( NDIDiscovery.initialize mock s rt created).2
  | DiscoveryOp.scanSources timeout_ms wait cur =>
    (s, (NDIDiscovery.scanSources mock s timeout_ms wait cur).2)
  | DiscoveryOp.startContinuousScanning => NDIDiscovery.startContinuousScanning s
  | DiscoveryOp.stopContinuousScanning => NDIDiscovery.stopContinuousScanning s
  | DiscoveryOp.getVersion version => (s, (NDIDiscovery.getVersion mock version).2)
  | DiscoveryOp.cleanup => NDIDiscovery.cleanup mock s

/-- The state after a sequence of operations of the discovery, and all events in order. -/
def NDIDiscovery.run (mock : Bool) (s : NDIDiscovery) :
    List DiscoveryOp → NDIDiscovery × List Event
  | [] => (s, [])
  | op :: ops =>
    ((NDIDiscovery.run mock (NDIDiscovery.step mock s op).1 ops).1,
      (NDIDiscovery.step mock s op).2 ++
        (NDIDiscovery.run mock (NDIDiscovery.step mock s op).1 ops).2)

/-- The number of background workers alive at the end of a trace that starts with none: the
threads started minus the threads joined. -/
def liveWorkers (ev : List Event) : Int :=
  (ev.count Event.thread_start : Int) - (ev.count Event.thread_join : Int)

/-- Reads a trace from left to right, starting with `n` live workers, and says whether the
number of live workers stays within zero and one at every point. -/
def workersBounded : Int → List Event → Bool
  | n, [] => decide (0 ≤ n ∧ n ≤ 1)
  | n, Event.thread_start :: rest => decide (0 ≤ n ∧ n ≤ 1) && workersBounded (n + 1) rest
  | n, Event.thread_join :: rest => decide (0 ≤ n ∧ n ≤ 1) && workersBounded (n - 1) rest
  | n, _ :: rest => workersBounded n rest

/-- The consistency of the discovery members: the scan thread is joinable exactly when
`is_scanning_` is set, and in the mock build no finder handle is ever stored. -/
def NDIDiscovery.Inv (mock : Bool) (s : NDIDiscovery) : Prop :=
  s.scan_thread_ = s.is_scanning_ ∧ (mock = true → s.finder_instance_ = none)

/-- The value `1` for a set flag and `0` for a clear one. -/
def flagCount (b : Bool) : Int := if b then 1 else 0

/-- The finder handles given to `NDIlib_find_destroy` along a trace, in order. -/
def destroyedFinders (ev : List Event) : List Nat :=
  ev.filterMap (fun e => match e with
    | Event.NDIlib_find_destroy h => some h
    | _ => none)

/-- The number of `NDIlib_find_create_v2` calls along a trace. -/
def finderCreations (ev : List Event) : Nat :=
  ev.countP (fun e => match e with
    | Event.NDIlib_find_create_v2 _ => true
    | _ => false)

/-- Whether an event is a call into the SDK (as opposed to a callback, a flag store, a thread
operation or a sleep). -/
def isSdkCall : Event → Bool
  | Event.frame_callback _ => false
  | Event.store_is_receiving _ => false
  | Event.store_is_scanning _ => false
  | Event.thread_start => false
  | Event.thread_join => false
  | Event.sleep_for _ => false
  | _ => true

/-! ## Concrete states and inputs used as examples -/

/-- The first source of the two-camera scenario. -/
def sourceA : NDISourceInfo :=
  { name := "Cam-1", machine_name := "10.0.0.5", url_address := "10.0.0.5:5960" }

/-- The second source of the two-camera scenario. -/
def sourceB : NDISourceInfo :=
  { name := "Cam-1 HX2", machine_name := "10.0.0.5", url_address := "10.0.0.5:5961",
    source_type := NDISourceType.NDI_HX2 }

/-- A receiver after `initialize()` succeeded. -/
def receiverInitialized : NDIReceiver := ( NDIReceiver.initialize {} true).2.1

/-- A receiver after `initialize()` and `connect(sourceA)` succeeded with handle `1`. -/
def receiverConnectedA : NDIReceiver :=
  (NDIReceiver.connect receiverInitialized sourceA (some 1)).2.1

/-- The receiver `receiverConnectedA` after `startReceiving`. -/
def receiverReceivingA : NDIReceiver := (NDIReceiver.startReceiving receiverConnectedA).1

/-- A discovery after `initialize()` succeeded with finder handle `7` (real build). -/
def discoveryInitialized : NDIDiscovery := ( NDIDiscovery.initialize false {} true (some 7)).2.1

/-- A 1920x1080 video unit with a stride of 3840 bytes. -/
def videoUnit1 : NDIlib_video_frame_v2_t :=
  { xres := 1920, yres := 1080, frame_rate_N := 30000, frame_rate_D := 1001, timestamp := 1000,
    line_stride_in_bytes := 3840, p_data := some 11 }

/-- A second video unit, 1280x720 with a stride of 5120 bytes. -/
def videoUnit2 : NDIlib_video_frame_v2_t :=
  { xres := 1280, yres := 720, frame_rate_N := 60, frame_rate_D := 1, timestamp := 2000,
    line_stride_in_bytes := 5120, p_data := some 12 }

/-- A short run of capture results mixing all kinds of unit. -/
def exampleUnits : List Captured :=
  [Captured.video videoUnit1, Captured.none,
    Captured.audio ⟨48000, 2, 1600, 1500, some 21⟩,
    Captured.video videoUnit2,
    Captured.metadata ⟨2500, some "<ndi_tally/>"⟩,
    Captured.none]

/-! # Theorems -/

/-! ## String helpers -/

theorem find_isSome_iff (s pat : List Char) : (find s pat).isSome = true ↔ pat <:+: s := by
  induction s with
  | nil =>
    by_cases hp : pat.isPrefixOf ([] : List Char) = true
    · have hnil : pat = [] := by simpa using hp
      simp [find, hnil]
    · have hnil : ¬ pat = [] := by simpa using hp
      simp [find, hnil]
  | cons c s ih =>
    by_cases hp : pat.isPrefixOf (c :: s) = true
    · have hpre : pat <+: c :: s := List.isPrefixOf_iff_prefix.1 hp
      simp [find, hp, hpre.isInfix]
    · have hpre : ¬ pat <+: c :: s := fun h => hp (List.isPrefixOf_iff_prefix.2 h)
      rw [List.infix_cons_iff]
      simp [find, hp, hpre, ih]

theorem find_char_none_iff (s : List Char) (ch : Char) : find_char s ch = none ↔ ch ∉ s := by
  induction s with
  | nil => simp [find_char]
  | cons c s ih =>
    by_cases hc : c = ch
    · simp [find_char, hc]
    · have hc2 : ¬ ch = c := fun h => hc h.symm
      simp [find_char, hc, hc2, ih]

theorem find_char_some (s : List Char) (ch : Char) (n : Nat) (h : find_char s ch = some n) :
    substr s 0 n = s.takeWhile (fun c => !decide (c = ch)) ∧
      s = substr s 0 n ++ ch :: s.drop (n + 1) := by
  induction s generalizing n with
  | nil => simp [find_char] at h
  | cons c s ih =>
    by_cases hc : c = ch
    · simp [find_char, hc] at h
      subst h
      simp [substr, hc]
    · cases hm : find_char s ch with
      | none => simp [find_char, hc, hm] at h
      | some m =>
      simp only [find_char, hc, if_false, hm, Option.map, Option.some.injEq] at h
      subst h
      obtain ⟨h1, h2⟩ := ih m hm
      simp only [substr, List.drop_zero] at h1 h2 ⊢
      refine ⟨?_, ?_⟩
      · simp [List.takeWhile_cons, hc, h1]
      · simp only [List.take_succ_cons, List.drop_succ_cons, List.cons_append]
        rw [← h2]

theorem not_mem_takeWhile_ne (s : List Char) (ch : Char) :
    ch ∉ s.takeWhile (fun c => !decide (c = ch)) := by
  intro hmem
  have := List.mem_takeWhile_imp hmem
  simp at this

/-! ## `determineSourceType` -/

theorem hx_infix_of_hx2 (l : List Char) (h : "hx2".data <:+: l) : "hx".data <:+: l :=
  List.IsInfix.trans (List.IsPrefix.isInfix ⟨['2'], rfl⟩) h

theorem hx_infix_of_hx3 (l : List Char) (h : "hx3".data <:+: l) : "hx".data <:+: l :=
  List.IsInfix.trans (List.IsPrefix.isInfix ⟨['3'], rfl⟩) h

theorem determineSourceType_cases (n : String) :
    (determineSourceType n = NDISourceType.NDI_HX3 ↔ "hx3".data <:+: n.data.map tolower) ∧
    (determineSourceType n = NDISourceType.NDI_HX2 ↔
      "hx".data <:+: n.data.map tolower ∧ ¬ "hx3".data <:+: n.data.map tolower) ∧
    (determineSourceType n = NDISourceType.NDI ↔ ¬ "hx".data <:+: n.data.map tolower) := by
  have e3 := find_isSome_iff (n.data.map tolower) "hx3".data
  have e2 := find_isSome_iff (n.data.map tolower) "hx2".data
  have e1 := find_isSome_iff (n.data.map tolower) "hx".data
  have i2 := hx_infix_of_hx2 (n.data.map tolower)
  have i3 := hx_infix_of_hx3 (n.data.map tolower)
  unfold determineSourceType
  by_cases h3 : "hx3".data <:+: n.data.map tolower
  · have f3 := e3.2 h3
    have h1 := i3 h3
    simp [f3, h3, h1]
  · have f3 : ¬ (find (n.data.map tolower) "hx3".data).isSome = true := fun h => h3 (e3.1 h)
    by_cases h1 : "hx".data <:+: n.data.map tolower
    · have f1 := e1.2 h1
      simp [f3, f1, h3, h1]
    · have f1 : ¬ (find (n.data.map tolower) "hx".data).isSome = true := fun h => h1 (e1.1 h)
      have f2 : ¬ (find (n.data.map tolower) "hx2".data).isSome = true :=
        fun h => h1 (i2 (e2.1 h))
      simp [f3, f1, f2, h3, h1]

theorem determineSourceType_lower (n m : String)
    (h : m.data.map tolower = n.data.map tolower) :
    determineSourceType m = determineSourceType n := by
  simp only [determineSourceType, h]

/-! ## `scanSources` -/

theorem convertSource_name (r : NDIlib_source_t) :
    (convertSource r).name = r.p_ndi_name.getD "" := by
  obtain ⟨n, a⟩ := r
  cases n <;> cases a <;> simp only [convertSource, Option.getD] <;> split <;> rfl

theorem convertSource_url_address (r : NDIlib_source_t) :
    (convertSource r).url_address = r.p_url_address.getD "" := by
  obtain ⟨n, a⟩ := r
  cases n <;> cases a <;> simp only [convertSource, Option.getD] <;> split <;> rfl

theorem convertSource_source_type (r : NDIlib_source_t) :
    (convertSource r).source_type = determineSourceType (convertSource r).name := by
  obtain ⟨n, a⟩ := r
  cases n <;> cases a <;> simp only [convertSource]

theorem convertSource_machine_name (r : NDIlib_source_t) (a : String)
    (ha : r.p_url_address = some a) :
    (convertSource r).machine_name.data = a.data.takeWhile (fun c => !decide (c = ':')) ∧
    ((convertSource r).machine_name = a ∨
      ∃ rest, a.data = (convertSource r).machine_name.data ++ ':' :: rest) := by
  obtain ⟨n, u⟩ := r
  simp only at ha
  subst ha
  cases hf : find_char a.data ':' with
  | none =>
    have hnot : ':' ∉ a.data := (find_char_none_iff a.data ':').1 hf
    have htw : a.data.takeWhile (fun c => !decide (c = ':')) = a.data := by
      rw [List.takeWhile_eq_self_iff]
      intro c hc
      have : ¬ c = ':' := fun h => hnot (h ▸ hc)
      simp [this]
    have hm : (convertSource ⟨n, some a⟩).machine_name = a := by
      cases n <;> simp only [convertSource, hf]
    rw [hm, htw]
    exact ⟨rfl, Or.inl rfl⟩
  | some k =>
    obtain ⟨h1, h2⟩ := find_char_some a.data ':' k hf
    have hm : (convertSource ⟨n, some a⟩).machine_name.data = substr a.data 0 k := by
      cases n <;> simp only [convertSource, hf]
    rw [hm]
    exact ⟨h1, Or.inr ⟨_, h2⟩⟩

theorem scanSources_real_eq (s : NDIDiscovery) (timeout_ms : Int) (wait : Bool)
    (cur : Option (List NDIlib_source_t)) :
    (NDIDiscovery.scanSources false s timeout_ms wait cur).1 =
      if s.is_initialized_ = true ∧ wait = true then (cur.getD []).map convertSource else [] := by
  unfold NDIDiscovery.scanSources
  cases hs : s.is_initialized_ <;> cases wait <;> simp
  cases cur with
  | none => simp
  | some l => cases l <;> simp

/-! ## The claims on discovery -/

/-- C1: on the real path, for an initialized discovery whose finder wait succeeds and reports
the array `srcs` (non-empty or not), `scanSources` returns a list of the same length whose `i`-th
descriptor carries the `i`-th reported name and address, in the reported order (a null C string
is read as the empty string). -/
theorem scanSources_same_length_and_order (s : NDIDiscovery) (timeout_ms : Int)
    (srcs : List NDIlib_source_t) (hinit : s.is_initialized_ = true) :
    ((NDIDiscovery.scanSources false s timeout_ms true (some srcs)).1).length = srcs.length ∧
    ∀ (i : Nat) (r : NDIlib_source_t), srcs[i]? = some r →
      ∃ d, (NDIDiscovery.scanSources false s timeout_ms true (some srcs)).1[i]? = some d ∧
        (∀ n, r.p_ndi_name = some n → d.name = n) ∧
        (∀ a, r.p_url_address = some a → d.url_address = a) ∧
        (r.p_ndi_name = none → d.name = "") ∧
        (r.p_url_address = none → d.url_address = "") := by
  have hout : (NDIDiscovery.scanSources false s timeout_ms true (some srcs)).1 =
      srcs.map convertSource := by
    rw [scanSources_real_eq]
    simp [hinit]
  rw [hout]
  refine ⟨List.length_map _ _, ?_⟩
  intro i r hr
  refine ⟨convertSource r, by simp [hr], ?_, ?_, ?_, ?_⟩
  · intro n hn
    rw [convertSource_name, hn]
    rfl
  · intro a ha
    rw [convertSource_url_address, ha]
    rfl
  · intro hn
    rw [convertSource_name, hn]
    rfl
  · intro ha
    rw [convertSource_url_address, ha]
    rfl

/-- Witness for C1: the two-camera scenario of the specification. -/
theorem scanSources_same_length_and_order_witness :
    ((NDIDiscovery.scanSources false { is_initialized_ := true, finder_instance_ := some 7 } 3000
        true (some [⟨some "Cam-1", some "10.0.0.5:5960"⟩,
          ⟨some "Cam-1 HX2", some "10.0.0.5:5961"⟩])).1).length = 2 ∧
    ((NDIDiscovery.scanSources false { is_initialized_ := true, finder_instance_ := some 7 } 3000
        true (some [⟨some "Cam-1", some "10.0.0.5:5960"⟩,
          ⟨some "Cam-1 HX2", some "10.0.0.5:5961"⟩])).1).map
        (fun d => (d.name, d.url_address)) =
      [("Cam-1", "10.0.0.5:5960"), ("Cam-1 HX2", "10.0.0.5:5961")] :=
  ⟨(scanSources_same_length_and_order { is_initialized_ := true, finder_instance_ := some 7 }
      3000 [⟨some "Cam-1", some "10.0.0.5:5960"⟩, ⟨some "Cam-1 HX2", some "10.0.0.5:5961"⟩]
      rfl).1, by decide⟩

/-- C2 as stated fails: in the `NDI_MOCK_IMPLEMENTATION` build, an initialized discovery returns
a descriptor (the second one, "模擬 OBS PREVIEW") whose `source_type` is `NDI_HX2` although
`determineSourceType` of its name is `NDI`. -/
theorem scanSources_mock_tag_not_from_name :
    ((NDIDiscovery.scanSources true ( NDIDiscovery.initialize true {} false none).2.1 3000
        false none).1)[1]?.map (fun d => (d.name, d.source_type, determineSourceType d.name)) =
      some ("模擬 OBS PREVIEW", NDISourceType.NDI_HX2, NDISourceType.NDI) := by
  decide

/-- C2 amended: every descriptor returned by `scanSources` on the real path has `source_type`
equal to `determineSourceType` of its own name; in the mock build the returned descriptors are
the hard-coded ones, with their hard-coded tags. -/
theorem scanSources_source_type (mock : Bool) (s : NDIDiscovery) (timeout_ms : Int)
    (wait : Bool) (cur : Option (List NDIlib_source_t)) (d : NDISourceInfo)
    (hd : d ∈ (NDIDiscovery.scanSources mock s timeout_ms wait cur).1) :
    (mock = false → d.source_type = determineSourceType d.name) ∧
    (mock = true → d ∈ mockSources) := by
  refine ⟨?_, ?_⟩
  · intro hm
    subst hm
    rw [scanSources_real_eq] at hd
    split at hd
    · obtain ⟨r, _, rfl⟩ := List.mem_map.1 hd
      exact convertSource_source_type r
    · simp at hd
  · intro hm
    subst hm
    unfold NDIDiscovery.scanSources at hd
    cases hs : s.is_initialized_ <;> simp [hs] at hd
    exact hd

/-- Witness for the amended C2: the HX2 camera of the two-camera scenario. -/
theorem scanSources_source_type_witness :
    (false = false →
      NDISourceType.NDI_HX2 = determineSourceType "Cam-1 HX2") ∧
    (false = true → (convertSource ⟨some "Cam-1 HX2", some "10.0.0.5:5961"⟩) ∈ mockSources) :=
  scanSources_source_type false { is_initialized_ := true } 3000 true
    (some [⟨some "Cam-1", some "10.0.0.5:5960"⟩, ⟨some "Cam-1 HX2", some "10.0.0.5:5961"⟩])
    (convertSource ⟨some "Cam-1 HX2", some "10.0.0.5:5961"⟩) (by decide)

/-- C3 as stated fails: the name "HX" is classified `NDI_HX2` although its lower-cased form
contains neither "hx2" nor "hx3". -/
theorem determineSourceType_hx_without_2 :
    determineSourceType "HX" = NDISourceType.NDI_HX2 ∧
    ¬ "hx2".data <:+: "HX".data.map tolower ∧
    ¬ "hx3".data <:+: "HX".data.map tolower := by
  refine ⟨by decide, ?_, ?_⟩
  · rw [← find_isSome_iff]
    decide
  · rw [← find_isSome_iff]
    decide

/-- C3 amended: with `L` the ASCII-lower-cased name, `determineSourceType` is `NDI_HX3` exactly
when `L` contains "hx3", `NDI_HX2` exactly when `L` contains "hx" but not "hx3", and `NDI`
exactly when `L` does not contain "hx"; two names with the same lower-cased form get the same
variant. -/
theorem determineSourceType_classification (n m : String) :
    (determineSourceType n = NDISourceType.NDI_HX3 ↔ "hx3".data <:+: n.data.map tolower) ∧
    (determineSourceType n = NDISourceType.NDI_HX2 ↔
      "hx".data <:+: n.data.map tolower ∧ ¬ "hx3".data <:+: n.data.map tolower) ∧
    (determineSourceType n = NDISourceType.NDI ↔ ¬ "hx".data <:+: n.data.map tolower) ∧
    (m.data.map tolower = n.data.map tolower → determineSourceType m = determineSourceType n) :=
  ⟨(determineSourceType_cases n).1, (determineSourceType_cases n).2.1,
    (determineSourceType_cases n).2.2, determineSourceType_lower n m⟩

/-- Witness for the amended C3: "Studio Hx Cam" and "STUDIO HX CAM" differ only in letter case
and are classified alike. -/
theorem determineSourceType_classification_witness :
    "STUDIO HX CAM".data.map tolower = "Studio Hx Cam".data.map tolower ∧
    determineSourceType "STUDIO HX CAM" = determineSourceType "Studio Hx Cam" :=
  ⟨by decide,
    (determineSourceType_classification "Studio Hx Cam" "STUDIO HX CAM").2.2.2 (by decide)⟩

/-- C4: for a reported entry with address `a`, the descriptor returned by `scanSources` at the
same index has as `machine_name` the part of `a` before its first colon, or all of `a` when `a`
has no colon; hence `machine_name` contains no colon and is a prefix of `a`. -/
theorem scanSources_machine_name (s : NDIDiscovery) (timeout_ms : Int)
    (srcs : List NDIlib_source_t) (i : Nat) (r : NDIlib_source_t) (a : String)
    (hinit : s.is_initialized_ = true) (hr : srcs[i]? = some r)
    (ha : r.p_url_address = some a) :
    ∃ d, (NDIDiscovery.scanSources false s timeout_ms true (some srcs)).1[i]? = some d ∧
      d.machine_name.data = a.data.takeWhile (fun c => !decide (c = ':')) ∧
      (':' ∈ a.data → ∃ rest, a.data = d.machine_name.data ++ ':' :: rest) ∧
      (':' ∉ a.data → d.machine_name = a) ∧
      ':' ∉ d.machine_name.data ∧
      d.machine_name.data <+: a.data := by
  have hout : (NDIDiscovery.scanSources false s timeout_ms true (some srcs)).1 =
      srcs.map convertSource := by
    rw [scanSources_real_eq]
    simp [hinit]
  rw [hout]
  obtain ⟨h1, h2⟩ := convertSource_machine_name r a ha
  have hno : ':' ∉ (convertSource r).machine_name.data := by
    rw [h1]
    exact not_mem_takeWhile_ne a.data ':'
  refine ⟨convertSource r, by simp [hr], h1, ?_, ?_, hno, ?_⟩
  · intro hmem
    rcases h2 with h2 | h2
    · exact absurd (h2 ▸ hmem) hno
    · exact h2
  · intro hnot
    rcases h2 with h2 | ⟨rest, h2⟩
    · exact h2
    · exact absurd (h2 ▸ List.mem_append_right _ (List.mem_cons_self _ _)) hnot
  · rw [h1]
    exact List.takeWhile_prefix _

/-- Witness for C4: the two-camera scenario of the specification; both machine names are
"10.0.0.5". -/
theorem scanSources_machine_name_witness :
    ((NDIDiscovery.scanSources false { is_initialized_ := true, finder_instance_ := some 7 } 3000
        true (some [⟨some "Cam-1", some "10.0.0.5:5960"⟩,
          ⟨some "Cam-1 HX2", some "10.0.0.5:5961"⟩])).1).map
        (fun d => (d.machine_name, d.source_type)) =
      [("10.0.0.5", NDISourceType.NDI), ("10.0.0.5", NDISourceType.NDI_HX2)] ∧
    ∃ d, (NDIDiscovery.scanSources false { is_initialized_ := true, finder_instance_ := some 7 }
        3000 true (some [⟨some "Cam-1", some "10.0.0.5:5960"⟩,
          ⟨some "Cam-1 HX2", some "10.0.0.5:5961"⟩])).1[1]? = some d ∧
      d.machine_name.data = "10.0.0.5:5961".data.takeWhile (fun c => !decide (c = ':')) ∧
      (':' ∈ "10.0.0.5:5961".data →
        ∃ rest, "10.0.0.5:5961".data = d.machine_name.data ++ ':' :: rest) ∧
      (':' ∉ "10.0.0.5:5961".data → d.machine_name = "10.0.0.5:5961") ∧
      ':' ∉ d.machine_name.data ∧
      d.machine_name.data <+: "10.0.0.5:5961".data :=
  ⟨by decide,
    scanSources_machine_name { is_initialized_ := true, finder_instance_ := some 7 } 3000
      [⟨some "Cam-1", some "10.0.0.5:5960"⟩, ⟨some "Cam-1 HX2", some "10.0.0.5:5961"⟩] 1
      ⟨some "Cam-1 HX2", some "10.0.0.5:5961"⟩ "10.0.0.5:5961" rfl rfl rfl⟩

/-- C5: on the real path `scanSources` is total and returns the empty list exactly when the
discovery is uninitialized, or the wait returns false, or the finder hands back a null array or
zero sources; an uninitialized discovery makes no call at all. -/
theorem scanSources_empty_iff (s : NDIDiscovery) (timeout_ms : Int) (wait : Bool)
    (cur : Option (List NDIlib_source_t)) :
    ((NDIDiscovery.scanSources false s timeout_ms wait cur).1 = [] ↔
      (s.is_initialized_ = false ∨ wait = false ∨ cur = none ∨ cur = some [])) ∧
    NDIDiscovery.scanSources false { s with is_initialized_ := false } timeout_ms wait cur =
      ([], []) := by
  refine ⟨?_, ?_⟩
  · rw [scanSources_real_eq]
    cases hs : s.is_initialized_ <;> cases wait <;> simp
    cases cur with
    | none => simp
    | some l => cases l <;> simp
  · simp [NDIDiscovery.scanSources]

/-! ## The receiver state machine -/

theorem inv_fresh : NDIReceiver.Inv {} := by
  simp [NDIReceiver.Inv]

theorem inv_initialize (s : NDIReceiver) (rt : Bool) (h : s.Inv) :
    ( NDIReceiver.initialize s rt).2.1.Inv := by
  obtain ⟨ri, init, conn, recv, cur, thr⟩ := s
  simp only [NDIReceiver.Inv] at h ⊢
  cases rt <;> simp_all [ NDIReceiver.initialize]

theorem inv_stopReceiving (s : NDIReceiver) (h : s.Inv) : (NDIReceiver.stopReceiving s).1.Inv := by
  obtain ⟨ri, init, conn, recv, cur, thr⟩ := s
  simp only [NDIReceiver.Inv] at h ⊢
  cases recv <;> cases thr <;> simp_all [NDIReceiver.stopReceiving]

theorem inv_disconnect (s : NDIReceiver) (h : s.Inv) : (NDIReceiver.disconnect s).1.Inv := by
  obtain ⟨ri, init, conn, recv, cur, thr⟩ := s
  simp only [NDIReceiver.Inv] at h ⊢
  cases ri <;> cases conn <;> cases recv <;> cases thr <;>
    simp_all [NDIReceiver.disconnect, NDIReceiver.stopReceiving]

theorem inv_connect (s : NDIReceiver) (source_info : NDISourceInfo) (created : Option Nat)
    (h : s.Inv) : (NDIReceiver.connect s source_info created).2.1.Inv := by
  obtain ⟨ri, init, conn, recv, cur, thr⟩ := s
  simp only [NDIReceiver.Inv] at h ⊢
  cases ri <;> cases init <;> cases conn <;> cases recv <;> cases thr <;> cases created <;>
    simp_all [NDIReceiver.connect, NDIReceiver.disconnect, NDIReceiver.stopReceiving]

theorem inv_startReceiving (s : NDIReceiver) (h : s.Inv) :
    (NDIReceiver.startReceiving s).1.Inv := by
  obtain ⟨ri, init, conn, recv, cur, thr⟩ := s
  simp only [NDIReceiver.Inv] at h ⊢
  cases conn <;> cases recv <;> simp_all [NDIReceiver.startReceiving]

theorem inv_cleanup (s : NDIReceiver) (h : s.Inv) : (NDIReceiver.cleanup s).1.Inv := by
  obtain ⟨ri, init, conn, recv, cur, thr⟩ := s
  simp only [NDIReceiver.Inv] at h ⊢
  cases ri <;> cases conn <;> cases recv <;> cases thr <;>
    simp_all [NDIReceiver.cleanup, NDIReceiver.disconnect, NDIReceiver.stopReceiving]

theorem reachable_inv (s : NDIReceiver) (h : NDIReceiver.Reachable s) : s.Inv := by
  induction h with
  | fresh => exact inv_fresh
  | step_init s rt _ ih => exact inv_initialize s rt ih
  | step_connect s src created _ ih => exact inv_connect s src created ih
  | step_disconnect s _ ih => exact inv_disconnect s ih
  | step_startReceiving s _ ih => exact inv_startReceiving s ih
  | step_stopReceiving s _ ih => exact inv_stopReceiving s ih
  | step_cleanup s _ ih => exact inv_cleanup s ih

theorem reachable_receiverInitialized : NDIReceiver.Reachable receiverInitialized :=
  NDIReceiver.Reachable.step_init _ _ NDIReceiver.Reachable.fresh

theorem reachable_receiverConnectedA : NDIReceiver.Reachable receiverConnectedA :=
  NDIReceiver.Reachable.step_connect _ _ _ reachable_receiverInitialized

theorem reachable_receiverReceivingA : NDIReceiver.Reachable receiverReceivingA :=
  NDIReceiver.Reachable.step_startReceiving _ reachable_receiverConnectedA

theorem disconnect_not_connected (s : NDIReceiver) (hc : s.is_connected_ = false) :
    NDIReceiver.disconnect s = (s, []) := by
  simp [NDIReceiver.disconnect, hc]

theorem disconnect_connected (s : NDIReceiver) (h : s.Inv) (hc : s.is_connected_ = true) :
    ∃ hA, s.receiver_instance_ = some hA ∧
      NDIReceiver.disconnect s =
        ({ receiver_instance_ := none, is_initialized_ := s.is_initialized_,
           is_connected_ := false, is_receiving_ := false, current_source_ := {},
           receive_thread_ := false },
          stopEvents s.is_receiving_ ++ [Event.NDIlib_recv_destroy hA]) := by
  obtain ⟨ri, init, conn, recv, cur, thr⟩ := s
  simp only [NDIReceiver.Inv] at h
  cases ri <;> cases conn <;> cases recv <;> cases thr <;>
    simp_all [NDIReceiver.disconnect, NDIReceiver.stopReceiving, stopEvents]

theorem connect_not_connected (s : NDIReceiver) (source_info : NDISourceInfo)
    (created : Option Nat) (h : s.Inv) (hinit : s.is_initialized_ = true)
    (hc : s.is_connected_ = false) :
    NDIReceiver.connect s source_info created =
      (created.isSome,
        { s with receiver_instance_ := created, is_connected_ := created.isSome,
                 current_source_ := if created.isSome then source_info else {} },
        [Event.NDIlib_recv_create_v3 source_info.name source_info.url_address 3 100 true]) := by
  obtain ⟨ri, init, conn, recv, cur, thr⟩ := s
  simp only [NDIReceiver.Inv] at h
  cases ri <;> cases conn <;> cases recv <;> cases thr <;> cases created <;>
    simp_all [NDIReceiver.connect]

theorem connect_connected (s : NDIReceiver) (source_info : NDISourceInfo)
    (created : Option Nat) (h : s.Inv) (hc : s.is_connected_ = true) :
    ∃ hA, s.receiver_instance_ = some hA ∧
      NDIReceiver.connect s source_info created =
        (created.isSome,
          { receiver_instance_ := created, is_initialized_ := true,
            is_connected_ := created.isSome, is_receiving_ := false,
            current_source_ := if created.isSome then source_info else {},
            receive_thread_ := false },
          stopEvents s.is_receiving_ ++ [Event.NDIlib_recv_destroy hA,
            Event.NDIlib_recv_create_v3 source_info.name source_info.url_address 3 100 true]) := by
  obtain ⟨ri, init, conn, recv, cur, thr⟩ := s
  simp only [NDIReceiver.Inv] at h
  cases ri <;> cases init <;> cases conn <;> cases recv <;> cases thr <;> cases created <;>
    simp_all [NDIReceiver.connect, NDIReceiver.disconnect, NDIReceiver.stopReceiving, stopEvents]

/-- C6: for every reachable, initialized receiver and every source, `connect` returns false
when `NDIlib_recv_create_v3` returns null, leaving the receiver not connected, not receiving and
with the default current source; it returns true when a handle is returned, leaving the receiver
connected with the given source as current source. -/
theorem connect_outcome (s : NDIReceiver) (source_info : NDISourceInfo) (created : Option Nat)
    (hreach : NDIReceiver.Reachable s) (hinit : s.is_initialized_ = true) :
    (created = none →
      (NDIReceiver.connect s source_info created).1 = false ∧
      (NDIReceiver.connect s source_info created).2.1.isConnected = false ∧
      (NDIReceiver.connect s source_info created).2.1.isReceiving = false ∧
      (NDIReceiver.connect s source_info created).2.1.getCurrentSource = {}) ∧
    (∀ h, created = some h →
      (NDIReceiver.connect s source_info created).1 = true ∧
      (NDIReceiver.connect s source_info created).2.1.isConnected = true ∧
      (NDIReceiver.connect s source_info created).2.1.getCurrentSource = source_info) := by
  have hinv := reachable_inv s hreach
  cases hc : s.is_connected_ with
  | false =>
    rw [connect_not_connected s source_info created hinv hinit hc]
    have hrecv : s.is_receiving_ = false := by
      cases hr : s.is_receiving_ with
      | false => rfl
      | true => rw [hinv.2.1 hr] at hc; exact absurd hc (by decide)
    have hcur : s.current_source_ = {} := hinv.2.2.2.1 hc
    refine ⟨?_, ?_⟩
    · intro hn
      subst hn
      simp [NDIReceiver.isConnected, NDIReceiver.isReceiving, NDIReceiver.getCurrentSource,
        hrecv]
    · intro h hs
      subst hs
      simp [NDIReceiver.isConnected, NDIReceiver.getCurrentSource]
  | true =>
    obtain ⟨hA, _, heq⟩ := connect_connected s source_info created hinv hc
    rw [heq]
    refine ⟨?_, ?_⟩
    · intro hn
      subst hn
      simp [NDIReceiver.isConnected, NDIReceiver.isReceiving, NDIReceiver.getCurrentSource]
    · intro h hs
      subst hs
      simp [NDIReceiver.isConnected, NDIReceiver.getCurrentSource]

/-- Witness for C6: a receiver receiving from `sourceA` is asked to connect to `sourceB` and the
SDK returns null. -/
theorem connect_outcome_witness :
    (NDIReceiver.connect receiverReceivingA sourceB none).1 = false ∧
    (NDIReceiver.connect receiverReceivingA sourceB none).2.1.isConnected = false ∧
    (NDIReceiver.connect receiverReceivingA sourceB none).2.1.isReceiving = false ∧
    (NDIReceiver.connect receiverReceivingA sourceB none).2.1.getCurrentSource = {} :=
  (connect_outcome receiverReceivingA sourceB none reachable_receiverReceivingA rfl).1 rfl

/-- C7 as stated fails: a receiver connected to `sourceA` whose `connect(sourceB)` fails is no
longer connected afterwards, and an initialized discovery whose second `initialize()` fails at
finder creation no longer holds its finder handle. -/
theorem failing_call_changes_state :
    ((NDIReceiver.connect receiverConnectedA sourceB none).1 = false ∧
      receiverConnectedA.is_connected_ = true ∧
      (NDIReceiver.connect receiverConnectedA sourceB none).2.1.is_connected_ = false ∧
      (NDIReceiver.connect receiverConnectedA sourceB none).2.1 ≠ receiverConnectedA) ∧
    (( NDIDiscovery.initialize false discoveryInitialized true none).1 = false ∧
      discoveryInitialized.finder_instance_ = some 7 ∧
      ( NDIDiscovery.initialize false discoveryInitialized true none).2.1.finder_instance_ = none ∧
      ( NDIDiscovery.initialize false discoveryInitialized true none).2.1 ≠
        discoveryInitialized) := by
  decide

/-- C7 amended: a failing `NDIReceiver::initialize` leaves the receiver state as it was; a
failing `NDIDiscovery::initialize` leaves the flags and the thread as they were, and the whole
state as it was when the runtime initialization failed or no finder was held; a failing
`NDIReceiver::connect` from a reachable state leaves the state as it was when the receiver was
not connected, and from a connected (or receiving) state it leaves the receiver disconnected:
no handle, not connected, not receiving, default current source, initialized flag unchanged. -/
theorem failing_call_state (r : NDIReceiver) (rt : Bool) (source_info : NDISourceInfo)
    (created : Option Nat) (d : NDIDiscovery) (mock drt : Bool) (dcreated : Option Nat)
    (hreach : NDIReceiver.Reachable r) :
    (( NDIReceiver.initialize r rt).1 = false → ( NDIReceiver.initialize r rt).2.1 = r) ∧
    (( NDIDiscovery.initialize mock d drt dcreated).1 = false →
      ( NDIDiscovery.initialize mock d drt dcreated).2.1.is_initialized_ = d.is_initialized_ ∧
      ( NDIDiscovery.initialize mock d drt dcreated).2.1.is_scanning_ = d.is_scanning_ ∧
      ( NDIDiscovery.initialize mock d drt dcreated).2.1.scan_thread_ = d.scan_thread_ ∧
      (drt = false ∨ d.finder_instance_ = none →
        ( NDIDiscovery.initialize mock d drt dcreated).2.1 = d)) ∧
    ((NDIReceiver.connect r source_info created).1 = false →
      (r.is_connected_ = false → (NDIReceiver.connect r source_info created).2.1 = r) ∧
      (r.is_connected_ = true →
        (NDIReceiver.connect r source_info created).2.1 =
          { receiver_instance_ := none, is_initialized_ := r.is_initialized_,
            is_connected_ := false, is_receiving_ := false, current_source_ := {},
            receive_thread_ := false })) := by
  have hinv := reachable_inv r hreach
  refine ⟨?_, ?_, ?_⟩
  · cases rt <;> simp [ NDIReceiver.initialize]
  · obtain ⟨fi, init, scan, thr⟩ := d
    cases mock <;> cases drt <;> cases dcreated <;> cases fi <;>
      simp [ NDIDiscovery.initialize]
  · intro hfail
    refine ⟨?_, ?_⟩
    · intro hc
      cases hi : r.is_initialized_ with
      | false => simp [NDIReceiver.connect, hi]
      | true =>
        rw [connect_not_connected r source_info created hinv hi hc] at hfail ⊢
        simp only at hfail
        have hcur : r.current_source_ = {} := hinv.2.2.2.1 hc
        have hri : r.receiver_instance_ = none := by
          have := hinv.1
          rw [hc] at this
          simpa using this
        obtain ⟨ri, init, conn, recv, cur, thr⟩ := r
        simp_all
    · intro hc
      obtain ⟨hA, _, heq⟩ := connect_connected r source_info created hinv hc
      rw [heq] at hfail ⊢
      simp only at hfail
      have hi : r.is_initialized_ = true := hinv.2.2.1 hc
      cases created with
      | some h => simp at hfail
      | none => simp [hi]

/-- Witness for the amended C7: the failing `connect(sourceB)` on a receiver that is receiving
from `sourceA` leaves exactly the initialized, disconnected state. -/
theorem failing_call_state_witness :
    (NDIReceiver.connect receiverReceivingA sourceB none).2.1 =
      { receiver_instance_ := none, is_initialized_ := true, is_connected_ := false,
        is_receiving_ := false, current_source_ := {}, receive_thread_ := false } :=
  ((failing_call_state receiverReceivingA false sourceB none discoveryInitialized false true
    none reachable_receiverReceivingA).2.2 rfl).2 rfl

/-- C8: for every reachable receiver connected to a source (receiving or not) and every source
`B` for which `NDIlib_recv_create_v3` returns the handle `hB`, `connect(B)` returns true and
ends connected, not receiving, with current source `B`, holding `hB`; the trace is the stop of
the reception (when it was active), one `NDIlib_recv_destroy` of the old handle, then the
creation for `B`, so the old handle is destroyed exactly once. -/
theorem connect_while_connected (s : NDIReceiver) (B : NDISourceInfo) (hB : Nat)
    (hreach : NDIReceiver.Reachable s) (hconn : s.isConnected = true) :
    ∃ hA, s.receiver_instance_ = some hA ∧
      (NDIReceiver.connect s B (some hB)).1 = true ∧
      (NDIReceiver.connect s B (some hB)).2.1.isConnected = true ∧
      (NDIReceiver.connect s B (some hB)).2.1.isReceiving = false ∧
      (NDIReceiver.connect s B (some hB)).2.1.getCurrentSource = B ∧
      (NDIReceiver.connect s B (some hB)).2.1.receiver_instance_ = some hB ∧
      (NDIReceiver.connect s B (some hB)).2.1.receive_thread_ = false ∧
      (NDIReceiver.connect s B (some hB)).2.2 =
        stopEvents s.is_receiving_ ++ [Event.NDIlib_recv_destroy hA,
          Event.NDIlib_recv_create_v3 B.name B.url_address 3 100 true] ∧
      ((NDIReceiver.connect s B (some hB)).2.2.filter
          (fun e => match e with
            | Event.NDIlib_recv_destroy _ => true
            | _ => false)) = [Event.NDIlib_recv_destroy hA] ∧
      destroyWhileReceiving s.is_receiving_ s.receive_thread_
        (NDIReceiver.connect s B (some hB)).2.2 = false := by
  have hinv := reachable_inv s hreach
  obtain ⟨hA, hri, heq⟩ := connect_connected s B (some hB) hinv hconn
  refine ⟨hA, hri, ?_⟩
  rw [heq]
  have hthr := hinv.2.2.2.2
  cases hr : s.is_receiving_ <;>
    simp [NDIReceiver.isConnected, NDIReceiver.isReceiving, NDIReceiver.getCurrentSource,
      stopEvents, destroyWhileReceiving, hthr, hr]

/-- Witness for C8: a receiver receiving from `sourceA` on handle `1` connects to `sourceB`,
for which the SDK returns handle `2`. -/
theorem connect_while_connected_witness :
    (receiverReceivingA.isConnected, receiverReceivingA.isReceiving,
      receiverReceivingA.getCurrentSource, receiverReceivingA.receiver_instance_) =
      (true, true, sourceA, some 1) ∧
    ((NDIReceiver.connect receiverReceivingA sourceB (some 2)).2.1.getCurrentSource,
      (NDIReceiver.connect receiverReceivingA sourceB (some 2)).2.1.receiver_instance_,
      (NDIReceiver.connect receiverReceivingA sourceB (some 2)).2.2) =
      (sourceB, some 2,
        [Event.store_is_receiving false, Event.thread_join, Event.NDIlib_recv_destroy 1,
          Event.NDIlib_recv_create_v3 "Cam-1 HX2" "10.0.0.5:5961" 3 100 true]) ∧
    ∃ hA, receiverReceivingA.receiver_instance_ = some hA ∧
      (NDIReceiver.connect receiverReceivingA sourceB (some 2)).1 = true :=
  ⟨by decide, by decide,
    (connect_while_connected receiverReceivingA sourceB 2 reachable_receiverReceivingA rfl).imp
      (fun _ h => ⟨h.1, h.2.1⟩)⟩

theorem no_destroy_while_receiving_disconnect (s : NDIReceiver) (h : s.Inv) :
    destroyWhileReceiving s.is_receiving_ s.receive_thread_ (NDIReceiver.disconnect s).2 =
      false := by
  obtain ⟨ri, init, conn, recv, cur, thr⟩ := s
  simp only [NDIReceiver.Inv] at h
  cases ri <;> cases conn <;> cases recv <;> cases thr <;>
    simp_all [NDIReceiver.disconnect, NDIReceiver.stopReceiving, destroyWhileReceiving]

theorem no_destroy_while_receiving_connect (s : NDIReceiver) (source_info : NDISourceInfo)
    (created : Option Nat) (h : s.Inv) :
    destroyWhileReceiving s.is_receiving_ s.receive_thread_
      (NDIReceiver.connect s source_info created).2.2 = false := by
  obtain ⟨ri, init, conn, recv, cur, thr⟩ := s
  simp only [NDIReceiver.Inv] at h
  cases ri <;> cases init <;> cases conn <;> cases recv <;> cases thr <;> cases created <;>
    simp_all [NDIReceiver.connect, NDIReceiver.disconnect, NDIReceiver.stopReceiving,
      destroyWhileReceiving]

theorem no_destroy_while_receiving_cleanup (s : NDIReceiver) (h : s.Inv) :
    destroyWhileReceiving s.is_receiving_ s.receive_thread_ (NDIReceiver.cleanup s).2 =
      false := by
  obtain ⟨ri, init, conn, recv, cur, thr⟩ := s
  simp only [NDIReceiver.Inv] at h
  cases ri <;> cases conn <;> cases recv <;> cases thr <;>
    simp_all [NDIReceiver.cleanup, NDIReceiver.disconnect, NDIReceiver.stopReceiving,
      destroyWhileReceiving]

/-- C9: on a reachable receiver, `disconnect()` changes nothing and calls nothing when not
connected; when connected it clears `is_receiving_` and joins the worker (if reception was
active) before the single `NDIlib_recv_destroy` of the held handle, and ends not receiving, not
connected, without handle, with the default current source and the initialized flag unchanged.
No `NDIlib_recv_destroy` made by `disconnect`, `connect` or `cleanup` happens while
`is_receiving_` is set or the worker is unjoined. -/
theorem disconnect_behaviour (s : NDIReceiver) (hreach : NDIReceiver.Reachable s) :
    (s.isConnected = false → NDIReceiver.disconnect s = (s, [])) ∧
    (s.isConnected = true →
      ∃ h, s.receiver_instance_ = some h ∧
        (NDIReceiver.disconnect s).2 =
          stopEvents s.isReceiving ++ [Event.NDIlib_recv_destroy h] ∧
        (NDIReceiver.disconnect s).1.isReceiving = false ∧
        (NDIReceiver.disconnect s).1.isConnected = false ∧
        (NDIReceiver.disconnect s).1.receiver_instance_ = none ∧
        (NDIReceiver.disconnect s).1.receive_thread_ = false ∧
        (NDIReceiver.disconnect s).1.getCurrentSource = {} ∧
        (NDIReceiver.disconnect s).1.is_initialized_ = s.is_initialized_) ∧
    destroyWhileReceiving s.is_receiving_ s.receive_thread_ (NDIReceiver.disconnect s).2 =
      false ∧
    (∀ source_info created, destroyWhileReceiving s.is_receiving_ s.receive_thread_
      (NDIReceiver.connect s source_info created).2.2 = false) ∧
    destroyWhileReceiving s.is_receiving_ s.receive_thread_ (NDIReceiver.cleanup s).2 =
      false := by
  have hinv := reachable_inv s hreach
  refine ⟨disconnect_not_connected s, ?_, no_destroy_while_receiving_disconnect s hinv,
    fun source_info created => no_destroy_while_receiving_connect s source_info created hinv,
    no_destroy_while_receiving_cleanup s hinv⟩
  intro hc
  obtain ⟨h, hri, heq⟩ := disconnect_connected s hinv hc
  refine ⟨h, hri, ?_⟩
  rw [heq]
  simp [NDIReceiver.isConnected, NDIReceiver.isReceiving, NDIReceiver.getCurrentSource]

/-- Witness for C9: `disconnect()` on a receiver receiving from `sourceA` on handle `1`. -/
theorem disconnect_behaviour_witness :
    NDIReceiver.disconnect receiverReceivingA =
      ({ receiver_instance_ := none, is_initialized_ := true, is_connected_ := false,
         is_receiving_ := false, current_source_ := {}, receive_thread_ := false },
        [Event.store_is_receiving false, Event.thread_join, Event.NDIlib_recv_destroy 1]) ∧
    NDIReceiver.disconnect receiverInitialized = (receiverInitialized, []) ∧
    destroyWhileReceiving receiverReceivingA.is_receiving_ receiverReceivingA.receive_thread_
      (NDIReceiver.disconnect receiverReceivingA).2 = false :=
  ⟨by decide, (disconnect_behaviour receiverInitialized reachable_receiverInitialized).1 rfl,
    (disconnect_behaviour receiverReceivingA reachable_receiverReceivingA).2.2.1⟩

/-! ## The receive loop -/

theorem receiveIteration_returned (size_bits h : Nat) (cb : NDIFrame → CallbackResult)
    (c : Captured) (hcb : ∀ f, cb f = CallbackResult.returned) :
    receiveIteration size_bits h (some cb) c =
      Event.NDIlib_recv_capture_v2 h 100 :: deliveryOf size_bits h c := by
  cases c <;> simp [receiveIteration, deliveryOf, hcb]

theorem receiveLoop_returned (size_bits : Nat) (s : NDIReceiver) (h : Nat)
    (cb : NDIFrame → CallbackResult) (units : List Captured)
    (hrecv : s.is_receiving_ = true) (hinst : s.receiver_instance_ = some h)
    (hcb : ∀ f, cb f = CallbackResult.returned) :
    receiveLoop size_bits s (some cb) units =
      units.flatMap (fun c => Event.NDIlib_recv_capture_v2 h 100 :: deliveryOf size_bits h c) := by
  induction units with
  | nil => simp [receiveLoop]
  | cons c rest ih =>
    simp only [receiveLoop, hrecv, hinst, List.flatMap_cons, ih,
      receiveIteration_returned size_bits h cb c hcb]

theorem callbackFrames_run (size_bits h : Nat) (units : List Captured) :
    callbackFrames
        (units.flatMap
          (fun c => Event.NDIlib_recv_capture_v2 h 100 :: deliveryOf size_bits h c)) =
      (videoUnits units).map (makeFrame size_bits) := by
  unfold callbackFrames videoUnits
  induction units with
  | nil => simp
  | cons c rest ih =>
    rw [List.flatMap_cons, List.filterMap_append, ih]
    cases c <;> simp [deliveryOf, List.filterMap_cons]

theorem withoutCaptures_run (size_bits h : Nat) (units : List Captured) :
    withoutCaptures
        (units.flatMap
          (fun c => Event.NDIlib_recv_capture_v2 h 100 :: deliveryOf size_bits h c)) =
      units.flatMap (deliveryOf size_bits h) := by
  unfold withoutCaptures
  induction units with
  | nil => simp
  | cons c rest ih =>
    rw [List.flatMap_cons, List.filter_append, ih, List.flatMap_cons]
    cases c <;> simp [deliveryOf, isCapture, List.filter_cons]

theorem captureCount_run (size_bits h : Nat) (units : List Captured) :
    captureCount
        (units.flatMap
          (fun c => Event.NDIlib_recv_capture_v2 h 100 :: deliveryOf size_bits h c)) =
      units.length := by
  unfold captureCount
  induction units with
  | nil => simp
  | cons c rest ih =>
    rw [List.flatMap_cons, List.countP_append, ih]
    cases c <;> simp [deliveryOf, isCapture, List.countP_cons] <;> omega

theorem releasedVideo_run (size_bits h : Nat) (units : List Captured) :
    releasedVideo
        (units.flatMap
          (fun c => Event.NDIlib_recv_capture_v2 h 100 :: deliveryOf size_bits h c)) =
      videoUnits units := by
  unfold releasedVideo videoUnits
  induction units with
  | nil => simp
  | cons c rest ih =>
    rw [List.flatMap_cons, List.filterMap_append, ih]
    cases c <;> simp [deliveryOf, List.filterMap_cons]

theorem releasedAudio_run (size_bits h : Nat) (units : List Captured) :
    releasedAudio
        (units.flatMap
          (fun c => Event.NDIlib_recv_capture_v2 h 100 :: deliveryOf size_bits h c)) =
      audioUnits units := by
  unfold releasedAudio audioUnits
  induction units with
  | nil => simp
  | cons c rest ih =>
    rw [List.flatMap_cons, List.filterMap_append, ih]
    cases c <;> simp [deliveryOf, List.filterMap_cons]

theorem releasedMetadata_run (size_bits h : Nat) (units : List Captured) :
    releasedMetadata
        (units.flatMap
          (fun c => Event.NDIlib_recv_capture_v2 h 100 :: deliveryOf size_bits h c)) =
      metadataUnits units := by
  unfold releasedMetadata metadataUnits
  induction units with
  | nil => simp
  | cons c rest ih =>
    rw [List.flatMap_cons, List.filterMap_append, ih]
    cases c <;> simp [deliveryOf, List.filterMap_cons]

theorem none_run (size_bits h : Nat) (units : List Captured)
    (hnone : ∀ u ∈ units, u = Captured.none) :
    units.flatMap (fun c => Event.NDIlib_recv_capture_v2 h 100 :: deliveryOf size_bits h c) =
      List.replicate units.length (Event.NDIlib_recv_capture_v2 h 100) := by
  induction units with
  | nil => simp
  | cons c rest ih =>
    have hc : c = Captured.none := hnone c (List.mem_cons_self _ _)
    have hrest : ∀ u ∈ rest, u = Captured.none := fun u hu => hnone u (List.mem_cons_of_mem _ hu)
    subst hc
    rw [List.flatMap_cons, ih hrest]
    simp [deliveryOf, List.replicate_succ]

theorem videoUnits_none (units : List Captured) (hnone : ∀ u ∈ units, u = Captured.none) :
    videoUnits units = [] := by
  unfold videoUnits
  rw [List.filterMap_eq_nil_iff]
  intro u hu
  rw [hnone u hu]

theorem callbackFrames_replicate_capture (h n : Nat) :
    callbackFrames (List.replicate n (Event.NDIlib_recv_capture_v2 h 100)) = [] ∧
    withoutCaptures (List.replicate n (Event.NDIlib_recv_capture_v2 h 100)) = [] := by
  unfold callbackFrames withoutCaptures
  induction n with
  | zero => simp
  | succ n ih => simp [List.replicate_succ, isCapture, ih.1, ih.2]

theorem wrapInt_of_range (p : Int) (h0 : 0 ≤ p) (h1 : p < 2 ^ 31) : wrapInt p = p := by
  unfold wrapInt
  rw [Int.emod_eq_of_lt (by omega) (by omega)]
  omega

theorem toSizeT_of_range (size_bits : Nat) (p : Int) (hs : 32 ≤ size_bits) (h0 : 0 ≤ p)
    (h1 : p < 2 ^ 31) : ((toSizeT size_bits p : Nat) : Int) = p := by
  unfold toSizeT
  have hpow : (2 : Int) ^ 31 ≤ 2 ^ size_bits :=
    pow_le_pow_right₀ (by norm_num) (by omega)
  rw [Int.emod_eq_of_lt h0 (lt_of_lt_of_le h1 hpow)]
  exact Int.toNat_of_nonneg h0

theorem makeFrame_fields (size_bits : Nat) (v : NDIlib_video_frame_v2_t) :
    (makeFrame size_bits v).width = v.xres ∧
    (makeFrame size_bits v).height = v.yres ∧
    (makeFrame size_bits v).timestamp = v.timestamp ∧
    (makeFrame size_bits v).data_size =
      toSizeT size_bits (wrapInt (v.line_stride_in_bytes * v.yres)) ∧
    (32 ≤ size_bits → 0 ≤ v.line_stride_in_bytes * v.yres →
      v.line_stride_in_bytes * v.yres < 2 ^ 31 →
      ((makeFrame size_bits v).data_size : Int) = v.line_stride_in_bytes * v.yres) := by
  refine ⟨rfl, rfl, rfl, rfl, ?_⟩
  intro hs h0 h1
  show ((toSizeT size_bits (wrapInt (v.line_stride_in_bytes * v.yres)) : Nat) : Int) = _
  rw [wrapInt_of_range _ h0 h1]
  exact toSizeT_of_range size_bits _ hs h0 h1

theorem receiveIteration_threw (size_bits h : Nat) (cb : NDIFrame → CallbackResult)
    (v : NDIlib_video_frame_v2_t) (hcb : cb (makeFrame size_bits v) = CallbackResult.threw) :
    receiveIteration size_bits h (some cb) (Captured.video v) =
      [Event.NDIlib_recv_capture_v2 h 100, Event.frame_callback (makeFrame size_bits v),
        Event.sleep_for 100] := by
  simp [receiveIteration, hcb]

/-- What holds when the consumer callback returns normally.  While the loop runs
(`is_receiving_` set, handle `h` held) with a non-empty callback that always returns, for every
finite sequence `units` of capture results: the frames given to the callback are exactly the
video units in pull order, one per video unit, each with `width = xres`, `height = yres`, the
unit's timestamp and `data_size` the `int` product `line_stride_in_bytes * yres` converted to
`size_t` (the product itself whenever it is a non-negative `int`); apart from the capture calls
the trace is, unit by unit, callback then release for a video unit, release alone for an audio
or metadata unit, nothing for `none`; every video, audio and metadata unit is released exactly
once, in order; the loop pulls once per unit; and a run of `none` units gives no callback and no
release, only the pulls. -/
theorem receiveLoop_delivery (size_bits : Nat) (s : NDIReceiver) (h : Nat)
    (cb : NDIFrame → CallbackResult) (units : List Captured)
    (hrecv : s.isReceiving = true) (hinst : s.receiver_instance_ = some h)
    (hcb : ∀ f, cb f = CallbackResult.returned) :
    callbackFrames (receiveLoop size_bits s (some cb) units) =
      (videoUnits units).map (makeFrame size_bits) ∧
    (∀ v ∈ videoUnits units,
      (makeFrame size_bits v).width = v.xres ∧
      (makeFrame size_bits v).height = v.yres ∧
      (makeFrame size_bits v).timestamp = v.timestamp ∧
      (makeFrame size_bits v).data_size =
        toSizeT size_bits (wrapInt (v.line_stride_in_bytes * v.yres)) ∧
      (32 ≤ size_bits → 0 ≤ v.line_stride_in_bytes * v.yres →
        v.line_stride_in_bytes * v.yres < 2 ^ 31 →
        ((makeFrame size_bits v).data_size : Int) = v.line_stride_in_bytes * v.yres)) ∧
    withoutCaptures (receiveLoop size_bits s (some cb) units) =
      units.flatMap (deliveryOf size_bits h) ∧
    releasedVideo (receiveLoop size_bits s (some cb) units) = videoUnits units ∧
    releasedAudio (receiveLoop size_bits s (some cb) units) = audioUnits units ∧
    releasedMetadata (receiveLoop size_bits s (some cb) units) = metadataUnits units ∧
    captureCount (receiveLoop size_bits s (some cb) units) = units.length ∧
    ((∀ u ∈ units, u = Captured.none) →
      callbackFrames (receiveLoop size_bits s (some cb) units) = [] ∧
      withoutCaptures (receiveLoop size_bits s (some cb) units) = [] ∧
      receiveLoop size_bits s (some cb) units =
        List.replicate units.length (Event.NDIlib_recv_capture_v2 h 100)) := by
  have hrun := receiveLoop_returned size_bits s h cb units hrecv hinst hcb
  rw [hrun]
  refine ⟨callbackFrames_run size_bits h units, fun v _ => makeFrame_fields size_bits v,
    withoutCaptures_run size_bits h units, releasedVideo_run size_bits h units,
    releasedAudio_run size_bits h units, releasedMetadata_run size_bits h units,
    captureCount_run size_bits h units, ?_⟩
  intro hnone
  have hrep := none_run size_bits h units hnone
  refine ⟨?_, ?_, hrep⟩
  · rw [callbackFrames_run, videoUnits_none units hnone]
    rfl
  · rw [hrep]
    exact (callbackFrames_replicate_capture h units.length).2

/-- An instance of `receiveLoop_delivery`: the receiver receiving from `sourceA` on handle `1`,
a 64-bit `size_t`, a callback that always returns, and six capture results of all kinds; also
ten `none` results. -/
theorem receiveLoop_delivery_witness :
    receiveLoop 64 receiverReceivingA (some (fun _ => CallbackResult.returned)) exampleUnits =
      [Event.NDIlib_recv_capture_v2 1 100,
        Event.frame_callback
          { width := 1920, height := 1080, frame_rate := (30000, 1001), timestamp := 1000,
            data_size := 4147200, data := none },
        Event.NDIlib_recv_free_video_v2 1 videoUnit1,
        Event.NDIlib_recv_capture_v2 1 100,
        Event.NDIlib_recv_capture_v2 1 100,
        Event.NDIlib_recv_free_audio_v2 1 ⟨48000, 2, 1600, 1500, some 21⟩,
        Event.NDIlib_recv_capture_v2 1 100,
        Event.frame_callback
          { width := 1280, height := 720, frame_rate := (60, 1), timestamp := 2000,
            data_size := 3686400, data := none },
        Event.NDIlib_recv_free_video_v2 1 videoUnit2,
        Event.NDIlib_recv_capture_v2 1 100,
        Event.NDIlib_recv_free_metadata 1 ⟨2500, some "<ndi_tally/>"⟩,
        Event.NDIlib_recv_capture_v2 1 100] ∧
    callbackFrames
        (receiveLoop 64 receiverReceivingA (some (fun _ => CallbackResult.returned))
          exampleUnits) =
      (videoUnits exampleUnits).map (makeFrame 64) ∧
    callbackFrames
        (receiveLoop 64 receiverReceivingA (some (fun _ => CallbackResult.returned))
          (List.replicate 10 Captured.none)) = [] :=
  ⟨by decide,
    (receiveLoop_delivery 64 receiverReceivingA 1 (fun _ => CallbackResult.returned)
      exampleUnits rfl rfl (fun _ => rfl)).1,
    ((receiveLoop_delivery 64 receiverReceivingA 1 (fun _ => CallbackResult.returned)
      (List.replicate 10 Captured.none) rfl rfl (fun _ => rfl)).2.2.2.2.2.2.2
        (fun _ hu => List.eq_of_mem_replicate hu)).1⟩

/-- C10 does not hold on the code when the callback throws: with the receiver receiving from
`sourceA` on handle `1` and a callback that throws a `std::exception`, the pulled video unit
`videoUnit1` is handed to the callback once, the exception is caught, the loop sleeps 100 ms,
and `NDIlib_recv_free_video_v2` is never called for that unit, although the next pull is made;
with a callback that returns, the same unit is released right after its callback. -/
theorem receiveLoop_throwing_callback_skips_release :
    receiveLoop 64 receiverReceivingA (some (fun _ => CallbackResult.threw))
        [Captured.video videoUnit1, Captured.none] =
      [Event.NDIlib_recv_capture_v2 1 100, Event.frame_callback (makeFrame 64 videoUnit1),
        Event.sleep_for 100, Event.NDIlib_recv_capture_v2 1 100] ∧
    releasedVideo
        (receiveLoop 64 receiverReceivingA (some (fun _ => CallbackResult.threw))
          [Captured.video videoUnit1, Captured.none]) = [] ∧
    videoUnits [Captured.video videoUnit1, Captured.none] = [videoUnit1] ∧
    receiveLoop 64 receiverReceivingA (some (fun _ => CallbackResult.returned))
        [Captured.video videoUnit1, Captured.none] =
      [Event.NDIlib_recv_capture_v2 1 100, Event.frame_callback (makeFrame 64 videoUnit1),
        Event.NDIlib_recv_free_video_v2 1 videoUnit1, Event.NDIlib_recv_capture_v2 1 100] := by
  decide

/-! ## Sequences of operations -/

theorem inv_step (s : NDIReceiver) (op : ReceiverOp) (h : s.Inv) :
    (NDIReceiver.step s op).1.Inv := by
  cases op with
  | init rt => exact inv_initialize s rt h
  | connect source_info created => exact inv_connect s source_info created h
  | disconnect => exact inv_disconnect s h
  | startReceiving => exact inv_startReceiving s h
  | stopReceiving => exact inv_stopReceiving s h
  | cleanup => exact inv_cleanup s h

theorem reachable_step (s : NDIReceiver) (op : ReceiverOp) (h : NDIReceiver.Reachable s) :
    NDIReceiver.Reachable (NDIReceiver.step s op).1 := by
  cases op with
  | init rt => exact NDIReceiver.Reachable.step_init s rt h
  | connect source_info created =>
    exact NDIReceiver.Reachable.step_connect s source_info created h
  | disconnect => exact NDIReceiver.Reachable.step_disconnect s h
  | startReceiving => exact NDIReceiver.Reachable.step_startReceiving s h
  | stopReceiving => exact NDIReceiver.Reachable.step_stopReceiving s h
  | cleanup => exact NDIReceiver.Reachable.step_cleanup s h

theorem reachable_run (s : NDIReceiver) (ops : List ReceiverOp)
    (h : NDIReceiver.Reachable s) : NDIReceiver.Reachable (NDIReceiver.run s ops).1 := by
  induction ops generalizing s with
  | nil => exact h
  | cons op ops ih => exact ih (NDIReceiver.step s op).1 (reachable_step s op h)

theorem run_of_reachable (s : NDIReceiver) (h : NDIReceiver.Reachable s) :
    ∃ ops, (NDIReceiver.run {} ops).1 = s := by
  have hsnoc : ∀ (ops : List ReceiverOp) (op : ReceiverOp) (t : NDIReceiver),
      (NDIReceiver.run t (ops ++ [op])).1 =
        (NDIReceiver.step (NDIReceiver.run t ops).1 op).1 := by
    intro ops op
    induction ops with
    | nil => intro t; rfl
    | cons o ops ih => intro t; exact ih (NDIReceiver.step t o).1
  induction h with
  | fresh => exact ⟨[], rfl⟩
  | step_init s rt _ ih =>
    obtain ⟨ops, hops⟩ := ih
    exact ⟨ops ++ [ReceiverOp.init rt], by rw [hsnoc, hops]; rfl⟩
  | step_connect s src created _ ih =>
    obtain ⟨ops, hops⟩ := ih
    exact ⟨ops ++ [ReceiverOp.connect src created], by rw [hsnoc, hops]; rfl⟩
  | step_disconnect s _ ih =>
    obtain ⟨ops, hops⟩ := ih
    exact ⟨ops ++ [ReceiverOp.disconnect], by rw [hsnoc, hops]; rfl⟩
  | step_startReceiving s _ ih =>
    obtain ⟨ops, hops⟩ := ih
    exact ⟨ops ++ [ReceiverOp.startReceiving], by rw [hsnoc, hops]; rfl⟩
  | step_stopReceiving s _ ih =>
    obtain ⟨ops, hops⟩ := ih
    exact ⟨ops ++ [ReceiverOp.stopReceiving], by rw [hsnoc, hops]; rfl⟩
  | step_cleanup s _ ih =>
    obtain ⟨ops, hops⟩ := ih
    exact ⟨ops ++ [ReceiverOp.cleanup], by rw [hsnoc, hops]; rfl⟩

/-- C16: in every receiver state reachable from a freshly constructed receiver by
`initialize`, `connect`, `disconnect`, `startReceiving`, `stopReceiving` and `cleanup` (real
build, any SDK answers), `is_receiving_` implies `is_connected_`, `is_connected_` implies
`is_initialized_`, the connection handle is non-null exactly when `is_connected_` is set, and
the current source is the default descriptor whenever `is_connected_` is clear. -/
theorem receiver_state_invariant (s : NDIReceiver) (hreach : NDIReceiver.Reachable s) :
    (s.is_receiving_ = true → s.is_connected_ = true) ∧
    (s.is_connected_ = true → s.is_initialized_ = true) ∧
    (s.receiver_instance_ ≠ none ↔ s.is_connected_ = true) ∧
    (s.is_connected_ = false → s.current_source_ = {}) := by
  obtain ⟨h1, h2, h3, h4, _⟩ := reachable_inv s hreach
  refine ⟨h2, h3, ?_, h4⟩
  rw [← h1]
  cases s.receiver_instance_ <;> simp

/-- Witness for C16: the state after `initialize`, `connect(sourceA)`, `startReceiving`, a
failing `connect(sourceB)` and `cleanup`. -/
theorem receiver_state_invariant_witness :
    ((NDIReceiver.run {} [ReceiverOp.init true, ReceiverOp.connect sourceA (some 1),
        ReceiverOp.startReceiving, ReceiverOp.connect sourceB none]).1.is_connected_ = false →
      (NDIReceiver.run {} [ReceiverOp.init true, ReceiverOp.connect sourceA (some 1),
        ReceiverOp.startReceiving, ReceiverOp.connect sourceB none]).1.current_source_ = {}) ∧
    (NDIReceiver.run {} [ReceiverOp.init true, ReceiverOp.connect sourceA (some 1),
        ReceiverOp.startReceiving, ReceiverOp.connect sourceB none]).1 =
      { receiver_instance_ := none, is_initialized_ := true, is_connected_ := false,
        is_receiving_ := false, current_source_ := {}, receive_thread_ := false } :=
  ⟨(receiver_state_invariant _
      (reachable_run {} [ReceiverOp.init true, ReceiverOp.connect sourceA (some 1),
        ReceiverOp.startReceiving, ReceiverOp.connect sourceB none]
        NDIReceiver.Reachable.fresh)).2.2.2, by decide⟩

/-- C11 does not hold on the code: the `NDIFrame` built for a video unit never gets its `data`
member assigned, so the frame handed to the callback carries a null `data` whatever the unit's
`p_data` is; for `videoUnit1`, whose payload pointer is non-null, the delivered frame has
`data` null. -/
theorem delivered_frame_data_is_null :
    videoUnit1.p_data = some 11 ∧
    callbackFrames
        (receiveLoop 64 receiverReceivingA (some (fun _ => CallbackResult.returned))
          [Captured.video videoUnit1]) =
      [{ width := 1920, height := 1080, frame_rate := (30000, 1001), timestamp := 1000,
         data_size := 4147200, data := none }] ∧
    (callbackFrames
        (receiveLoop 64 receiverReceivingA (some (fun _ => CallbackResult.returned))
          [Captured.video videoUnit1])).map (fun f => f.data) ≠ [videoUnit1.p_data] ∧
    ∀ (size_bits : Nat) (v : NDIlib_video_frame_v2_t), (makeFrame size_bits v).data = none := by
  refine ⟨rfl, by decide, by decide, ?_⟩
  intro size_bits v
  rfl

/-- C13: `stopReceiving()` on a reachable receiver that is not receiving changes nothing and
does nothing; on a receiving one it stores `false` to `is_receiving_` and joins the worker,
ending not receiving with `isConnected()`, the handle, the current source and the initialized
flag unchanged; and for a receiver that is connected and not receiving, `startReceiving`
followed by `stopReceiving` gives back exactly the state before `startReceiving`. -/
theorem stopReceiving_behaviour (s : NDIReceiver) (hreach : NDIReceiver.Reachable s) :
    (s.isReceiving = false → NDIReceiver.stopReceiving s = (s, [])) ∧
    (s.isReceiving = true →
      (NDIReceiver.stopReceiving s).1.isReceiving = false ∧
      (NDIReceiver.stopReceiving s).1.isConnected = s.isConnected ∧
      (NDIReceiver.stopReceiving s).1.receiver_instance_ = s.receiver_instance_ ∧
      (NDIReceiver.stopReceiving s).1.getCurrentSource = s.getCurrentSource ∧
      (NDIReceiver.stopReceiving s).1.is_initialized_ = s.is_initialized_ ∧
      (NDIReceiver.stopReceiving s).1.receive_thread_ = false ∧
      (NDIReceiver.stopReceiving s).2 = [Event.store_is_receiving false, Event.thread_join]) ∧
    (s.isConnected = true → s.isReceiving = false →
      (NDIReceiver.startReceiving s).1.isReceiving = true ∧
      (NDIReceiver.stopReceiving (NDIReceiver.startReceiving s).1).1 = s) := by
  have hinv := reachable_inv s hreach
  clear hreach
  obtain ⟨ri, init, conn, recv, cur, thr⟩ := s
  simp only [NDIReceiver.Inv] at hinv
  cases conn <;> cases recv <;> cases thr <;>
    simp_all [NDIReceiver.stopReceiving, NDIReceiver.startReceiving, NDIReceiver.isReceiving,
      NDIReceiver.isConnected, NDIReceiver.getCurrentSource]

/-- Witness for C13: the receiver connected to `sourceA`, started and stopped again. -/
theorem stopReceiving_behaviour_witness :
    (NDIReceiver.startReceiving receiverConnectedA).1.isReceiving = true ∧
    (NDIReceiver.stopReceiving (NDIReceiver.startReceiving receiverConnectedA).1).1 =
      receiverConnectedA :=
  (stopReceiving_behaviour receiverConnectedA reachable_receiverConnectedA).2.2 rfl rfl

/-! ## The discovery state machine -/

theorem dinv_fresh (mock : Bool) : NDIDiscovery.Inv mock {} := by
  simp [NDIDiscovery.Inv]

theorem scanSources_events (mock : Bool) (s : NDIDiscovery) (timeout_ms : Int) (wait : Bool)
    (cur : Option (List NDIlib_source_t)) :
    (NDIDiscovery.scanSources mock s timeout_ms wait cur).2 = [] ∨
    (NDIDiscovery.scanSources mock s timeout_ms wait cur).2 =
      [Event.NDIlib_find_wait_for_sources s.finder_instance_ (timeout_ms % 2 ^ 32).toNat] ∨
    (NDIDiscovery.scanSources mock s timeout_ms wait cur).2 =
      [Event.NDIlib_find_wait_for_sources s.finder_instance_ (timeout_ms % 2 ^ 32).toNat,
        Event.NDIlib_find_get_current_sources s.finder_instance_] := by
  unfold NDIDiscovery.scanSources
  cases s.is_initialized_ <;> cases mock <;> cases wait <;> simp
  cases cur with
  | none => simp
  | some l => cases l <;> simp

theorem getVersion_events (mock : Bool) (version : Option String) :
    (NDIDiscovery.getVersion mock version).2 = [] ∨
    (NDIDiscovery.getVersion mock version).2 = [Event.NDIlib_version] := by
  cases mock <;> cases version <;> simp [NDIDiscovery.getVersion]

theorem dinv_step (mock : Bool) (s : NDIDiscovery) (op : DiscoveryOp)
    (h : NDIDiscovery.Inv mock s) : NDIDiscovery.Inv mock (NDIDiscovery.step mock s op).1 := by
  obtain ⟨fi, init, scan, thr⟩ := s
  simp only [NDIDiscovery.Inv] at h ⊢
  cases op with
  | init rt created =>
    cases mock <;> cases rt <;> cases created <;>
      simp_all [NDIDiscovery.step, NDIDiscovery.initialize]
  | scanSources timeout_ms wait cur => simpa [NDIDiscovery.step] using h
  | startContinuousScanning =>
    cases scan <;> simp_all [NDIDiscovery.step, NDIDiscovery.startContinuousScanning]
  | stopContinuousScanning =>
    cases scan <;> cases thr <;>
      simp_all [NDIDiscovery.step, NDIDiscovery.stopContinuousScanning]
  | getVersion version => simpa [NDIDiscovery.step] using h
  | cleanup =>
    cases mock <;> cases fi <;> cases init <;> cases scan <;> cases thr <;>
      simp_all [NDIDiscovery.step, NDIDiscovery.cleanup, NDIDiscovery.stopContinuousScanning]

theorem dinv_run (mock : Bool) (s : NDIDiscovery) (ops : List DiscoveryOp)
    (h : NDIDiscovery.Inv mock s) : NDIDiscovery.Inv mock (NDIDiscovery.run mock s ops).1 := by
  induction ops generalizing s with
  | nil => exact h
  | cons op ops ih => exact ih (NDIDiscovery.step mock s op).1 (dinv_step mock s op h)

theorem receiver_cleanup_of_inv (s : NDIReceiver) (h : s.Inv) :
    NDIReceiver.cleanup s =
      ({},
        match s.receiver_instance_ with
        | some hA => stopEvents s.is_receiving_ ++ [Event.NDIlib_recv_destroy hA]
        | none => []) := by
  obtain ⟨ri, init, conn, recv, cur, thr⟩ := s
  simp only [NDIReceiver.Inv] at h
  cases ri <;> cases conn <;> cases recv <;> cases thr <;>
    simp_all [NDIReceiver.cleanup, NDIReceiver.disconnect, NDIReceiver.stopReceiving, stopEvents]

theorem discovery_cleanup_of_inv (mock : Bool) (s : NDIDiscovery)
    (h : NDIDiscovery.Inv mock s) :
    NDIDiscovery.cleanup mock s =
      ({},
        (if s.is_scanning_ then [Event.store_is_scanning false, Event.thread_join] else []) ++
        (match s.finder_instance_ with
          | some hF => [Event.NDIlib_find_destroy hF]
          | none => []) ++
        (if !mock && s.is_initialized_ then [Event.NDIlib_destroy] else [])) := by
  obtain ⟨fi, init, scan, thr⟩ := s
  simp only [NDIDiscovery.Inv] at h
  cases mock <;> cases fi <;> cases init <;> cases scan <;> cases thr <;>
    simp_all [NDIDiscovery.cleanup, NDIDiscovery.stopContinuousScanning]

/-- C14: `cleanup()` of the receiver from every reachable state, and of the discovery from the
state after any sequence of its operations (either build), ends in the state of a freshly
constructed component: no joinable worker, activity flag clear, no handle, uninitialized, and
for the receiver not connected with the default current source.  The events are, in this
order, the stop of the activity (flag store and join, when active), the release of the held
handle (when one is held) and, for an initialized discovery in the real build,
`NDIlib_destroy`; no connection is destroyed while reception is active.  A second `cleanup()`
right after the first changes no state and produces no event. -/
theorem cleanup_behaviour (r : NDIReceiver) (mock : Bool) (dops : List DiscoveryOp)
    (hreach : NDIReceiver.Reachable r) :
    (NDIReceiver.cleanup r).1 = {} ∧
    (NDIReceiver.cleanup r).2 =
      (match r.receiver_instance_ with
        | some hA => stopEvents r.isReceiving ++ [Event.NDIlib_recv_destroy hA]
        | none => []) ∧
    destroyWhileReceiving r.is_receiving_ r.receive_thread_ (NDIReceiver.cleanup r).2 = false ∧
    NDIReceiver.cleanup (NDIReceiver.cleanup r).1 = ((NDIReceiver.cleanup r).1, []) ∧
    (NDIDiscovery.cleanup mock (NDIDiscovery.run mock {} dops).1).1 = {} ∧
    (NDIDiscovery.cleanup mock (NDIDiscovery.run mock {} dops).1).2 =
      (if (NDIDiscovery.run mock {} dops).1.is_scanning_ then
          [Event.store_is_scanning false, Event.thread_join] else []) ++
      (match (NDIDiscovery.run mock {} dops).1.finder_instance_ with
        | some hF => [Event.NDIlib_find_destroy hF]
        | none => []) ++
      (if !mock && (NDIDiscovery.run mock {} dops).1.is_initialized_ then
          [Event.NDIlib_destroy] else []) ∧
    NDIDiscovery.cleanup mock (NDIDiscovery.cleanup mock (NDIDiscovery.run mock {} dops).1).1 =
      ((NDIDiscovery.cleanup mock (NDIDiscovery.run mock {} dops).1).1, []) := by
  have hinv := reachable_inv r hreach
  have hdinv := dinv_run mock {} dops (dinv_fresh mock)
  have hr := receiver_cleanup_of_inv r hinv
  have hd := discovery_cleanup_of_inv mock _ hdinv
  have hr2 := receiver_cleanup_of_inv {} inv_fresh
  have hd2 := discovery_cleanup_of_inv mock {} (dinv_fresh mock)
  refine ⟨?_, ?_, no_destroy_while_receiving_cleanup r hinv, ?_, ?_, ?_, ?_⟩
  · rw [hr]
  · rw [hr]
    rfl
  · rw [hr, hr2]
  · rw [hd]
  · rw [hd]
  · rw [hd, hd2]
    cases mock <;> rfl

/-- Witness for C14: `cleanup()` of the receiver receiving from `sourceA`, and of a discovery
(real build) that was initialized with finder `7` and is scanning continuously. -/
theorem cleanup_behaviour_witness :
    NDIReceiver.cleanup receiverReceivingA =
      ({}, [Event.store_is_receiving false, Event.thread_join, Event.NDIlib_recv_destroy 1]) ∧
    NDIDiscovery.cleanup false
        (NDIDiscovery.run false {}
          [DiscoveryOp.init true (some 7), DiscoveryOp.startContinuousScanning]).1 =
      ({}, [Event.store_is_scanning false, Event.thread_join, Event.NDIlib_find_destroy 7,
        Event.NDIlib_destroy]) ∧
    (NDIReceiver.cleanup receiverReceivingA).1 = {} ∧
    NDIReceiver.cleanup (NDIReceiver.cleanup receiverReceivingA).1 =
      ((NDIReceiver.cleanup receiverReceivingA).1, []) :=
  ⟨by decide, by decide,
    (cleanup_behaviour receiverReceivingA false
      [DiscoveryOp.init true (some 7), DiscoveryOp.startContinuousScanning]
      reachable_receiverReceivingA).1,
    (cleanup_behaviour receiverReceivingA false
      [DiscoveryOp.init true (some 7), DiscoveryOp.startContinuousScanning]
      reachable_receiverReceivingA).2.2.2.1⟩

/-! ## Counting the background workers -/

theorem liveWorkers_nil : liveWorkers [] = 0 := by
  simp [liveWorkers]

theorem liveWorkers_append (a b : List Event) :
    liveWorkers (a ++ b) = liveWorkers a + liveWorkers b := by
  simp only [liveWorkers, List.count_append, Nat.cast_add]
  ring

theorem liveWorkers_cons (e : Event) (a : List Event) :
    liveWorkers (e :: a) = liveWorkers [e] + liveWorkers a :=
  liveWorkers_append [e] a

theorem workersBounded_append (n : Int) (a b : List Event)
    (ha : workersBounded n a = true) (hb : workersBounded (n + liveWorkers a) b = true) :
    workersBounded n (a ++ b) = true := by
  induction a generalizing n with
  | nil => simpa [liveWorkers_nil] using hb
  | cons e a ih =>
    rw [liveWorkers_cons] at hb
    cases e <;>
      simp only [workersBounded, List.cons_append, Bool.and_eq_true] at ha ⊢ <;>
      first
      | exact ih n ha (by simpa [liveWorkers] using hb)
      | exact ⟨ha.1, ih _ ha.2 (by
          have e1 : n + (liveWorkers [Event.thread_start] + liveWorkers a) =
              n + 1 + liveWorkers a := by simp [liveWorkers]; ring
          have e2 : n + (liveWorkers [Event.thread_join] + liveWorkers a) =
              n - 1 + liveWorkers a := by simp [liveWorkers]; ring
          first
          | rw [e1] at hb; exact hb
          | rw [e2] at hb; exact hb)⟩

theorem receiver_step_workers (s : NDIReceiver) (op : ReceiverOp) (h : s.Inv) :
    workersBounded (flagCount s.is_receiving_) (NDIReceiver.step s op).2 = true ∧
    flagCount s.is_receiving_ + liveWorkers (NDIReceiver.step s op).2 =
      flagCount (NDIReceiver.step s op).1.is_receiving_ := by
  obtain ⟨ri, init, conn, recv, cur, thr⟩ := s
  simp only [NDIReceiver.Inv] at h
  cases op with
  | init rt =>
    cases rt <;> cases recv <;>
      simp [NDIReceiver.step, NDIReceiver.initialize, workersBounded, liveWorkers, flagCount]
  | connect source_info created =>
    cases ri <;> cases init <;> cases conn <;> cases recv <;> cases thr <;> cases created <;>
      simp_all [NDIReceiver.step, NDIReceiver.connect, NDIReceiver.disconnect,
        NDIReceiver.stopReceiving, workersBounded, liveWorkers, flagCount]
  | disconnect =>
    cases ri <;> cases conn <;> cases recv <;> cases thr <;>
      simp_all [NDIReceiver.step, NDIReceiver.disconnect, NDIReceiver.stopReceiving,
        workersBounded, liveWorkers, flagCount]
  | startReceiving =>
    cases conn <;> cases recv <;> cases thr <;>
      simp_all [NDIReceiver.step, NDIReceiver.startReceiving, workersBounded, liveWorkers,
        flagCount]
  | stopReceiving =>
    cases recv <;> cases thr <;>
      simp_all [NDIReceiver.step, NDIReceiver.stopReceiving, workersBounded, liveWorkers,
        flagCount]
  | cleanup =>
    cases ri <;> cases conn <;> cases recv <;> cases thr <;>
      simp_all [NDIReceiver.step, NDIReceiver.cleanup, NDIReceiver.disconnect,
        NDIReceiver.stopReceiving, workersBounded, liveWorkers, flagCount]

theorem receiver_run_workers (s : NDIReceiver) (ops : List ReceiverOp) (h : s.Inv) :
    workersBounded (flagCount s.is_receiving_) (NDIReceiver.run s ops).2 = true ∧
    flagCount s.is_receiving_ + liveWorkers (NDIReceiver.run s ops).2 =
      flagCount (NDIReceiver.run s ops).1.is_receiving_ := by
  induction ops generalizing s with
  | nil => cases hr : s.is_receiving_ <;> simp [NDIReceiver.run, workersBounded, liveWorkers,
      flagCount, hr]
  | cons op ops ih =>
    obtain ⟨hb, hl⟩ := receiver_step_workers s op h
    obtain ⟨ihb, ihl⟩ := ih (NDIReceiver.step s op).1 (inv_step s op h)
    simp only [NDIReceiver.run]
    refine ⟨workersBounded_append _ _ _ hb (by rw [hl]; exact ihb), ?_⟩
    rw [liveWorkers_append, ← add_assoc, hl, ihl]

theorem discovery_step_workers (mock : Bool) (s : NDIDiscovery) (op : DiscoveryOp)
    (h : NDIDiscovery.Inv mock s) :
    workersBounded (flagCount s.is_scanning_) (NDIDiscovery.step mock s op).2 = true ∧
    flagCount s.is_scanning_ + liveWorkers (NDIDiscovery.step mock s op).2 =
      flagCount (NDIDiscovery.step mock s op).1.is_scanning_ := by
  cases op with
  | init rt created =>
    obtain ⟨fi, init, scan, thr⟩ := s
    cases mock <;> cases rt <;> cases created <;> cases scan <;>
      simp [NDIDiscovery.step, NDIDiscovery.initialize, workersBounded, liveWorkers, flagCount]
  | scanSources timeout_ms wait cur =>
    rcases scanSources_events mock s timeout_ms wait cur with he | he | he <;>
      cases hs : s.is_scanning_ <;>
      simp [NDIDiscovery.step, he, hs, workersBounded, liveWorkers, flagCount]
  | startContinuousScanning =>
    obtain ⟨fi, init, scan, thr⟩ := s
    cases scan <;>
      simp [NDIDiscovery.step, NDIDiscovery.startContinuousScanning, workersBounded,
        liveWorkers, flagCount]
  | stopContinuousScanning =>
    obtain ⟨fi, init, scan, thr⟩ := s
    simp only [NDIDiscovery.Inv] at h
    cases scan <;> cases thr <;>
      simp_all [NDIDiscovery.step, NDIDiscovery.stopContinuousScanning, workersBounded,
        liveWorkers, flagCount]
  | getVersion version =>
    rcases getVersion_events mock version with he | he <;>
      cases hs : s.is_scanning_ <;>
      simp [NDIDiscovery.step, he, hs, workersBounded, liveWorkers, flagCount]
  | cleanup =>
    obtain ⟨fi, init, scan, thr⟩ := s
    simp only [NDIDiscovery.Inv] at h
    cases mock <;> cases fi <;> cases init <;> cases scan <;> cases thr <;>
      simp_all [NDIDiscovery.step, NDIDiscovery.cleanup, NDIDiscovery.stopContinuousScanning,
        workersBounded, liveWorkers, flagCount]

theorem discovery_run_workers (mock : Bool) (s : NDIDiscovery) (ops : List DiscoveryOp)
    (h : NDIDiscovery.Inv mock s) :
    workersBounded (flagCount s.is_scanning_) (NDIDiscovery.run mock s ops).2 = true ∧
    flagCount s.is_scanning_ + liveWorkers (NDIDiscovery.run mock s ops).2 =
      flagCount (NDIDiscovery.run mock s ops).1.is_scanning_ := by
  induction ops generalizing s with
  | nil => cases hr : s.is_scanning_ <;> simp [NDIDiscovery.run, workersBounded, liveWorkers,
      flagCount, hr]
  | cons op ops ih =>
    obtain ⟨hb, hl⟩ := discovery_step_workers mock s op h
    obtain ⟨ihb, ihl⟩ := ih (NDIDiscovery.step mock s op).1 (dinv_step mock s op h)
    simp only [NDIDiscovery.run]
    refine ⟨workersBounded_append _ _ _ hb (by rw [hl]; exact ihb), ?_⟩
    rw [liveWorkers_append, ← add_assoc, hl, ihl]

/-- C12: after any sequence of public operations on a freshly constructed receiver (real
build) or discovery (either build), run sequentially, the number of workers started and not yet
joined is `1` when the activity flag (`is_receiving_`, `is_scanning_`) is set and `0` when it
is clear, and it stays within zero and one at every point of the history; a `startReceiving` or
`startContinuousScanning` call made while the flag is set returns the same state and does
nothing. -/
theorem at_most_one_worker (ops : List ReceiverOp) (mock : Bool) (dops : List DiscoveryOp) :
    liveWorkers (NDIReceiver.run {} ops).2 =
      (if (NDIReceiver.run {} ops).1.is_receiving_ then 1 else 0) ∧
    liveWorkers (NDIReceiver.run {} ops).2 ≤ 1 ∧
    workersBounded 0 (NDIReceiver.run {} ops).2 = true ∧
    liveWorkers (NDIDiscovery.run mock {} dops).2 =
      (if (NDIDiscovery.run mock {} dops).1.is_scanning_ then 1 else 0) ∧
    liveWorkers (NDIDiscovery.run mock {} dops).2 ≤ 1 ∧
    workersBounded 0 (NDIDiscovery.run mock {} dops).2 = true ∧
    ((NDIReceiver.run {} ops).1.is_receiving_ = true →
      NDIReceiver.startReceiving (NDIReceiver.run {} ops).1 =
        ((NDIReceiver.run {} ops).1, [])) ∧
    ((NDIDiscovery.run mock {} dops).1.is_scanning_ = true →
      NDIDiscovery.startContinuousScanning (NDIDiscovery.run mock {} dops).1 =
        ((NDIDiscovery.run mock {} dops).1, [])) := by
  obtain ⟨rb, rl⟩ := receiver_run_workers {} ops inv_fresh
  obtain ⟨db, dl⟩ := discovery_run_workers mock {} dops (dinv_fresh mock)
  have rl2 : liveWorkers (NDIReceiver.run {} ops).2 =
      flagCount (NDIReceiver.run {} ops).1.is_receiving_ := by
    simpa [flagCount] using rl
  have dl2 : liveWorkers (NDIDiscovery.run mock {} dops).2 =
      flagCount (NDIDiscovery.run mock {} dops).1.is_scanning_ := by
    simpa [flagCount] using dl
  have hinv := reachable_inv _ (reachable_run {} ops NDIReceiver.Reachable.fresh)
  refine ⟨rl2, ?_, by simpa [flagCount] using rb, dl2, ?_, by simpa [flagCount] using db,
    ?_, ?_⟩
  · rw [rl2]
    unfold flagCount
    split <;> decide
  · rw [dl2]
    unfold flagCount
    split <;> decide
  · intro hr
    have hc := hinv.2.1 hr
    simp [NDIReceiver.startReceiving, hr, hc]
  · intro hs
    simp [NDIDiscovery.startContinuousScanning, hs]

/-- Witness for C12: a receiver that is started twice and a discovery that is started twice
still have one worker each, and the second start does nothing. -/
theorem at_most_one_worker_witness :
    liveWorkers (NDIReceiver.run {} [ReceiverOp.init true, ReceiverOp.connect sourceA (some 1),
      ReceiverOp.startReceiving, ReceiverOp.startReceiving]).2 = 1 ∧
    liveWorkers (NDIDiscovery.run false {} [DiscoveryOp.init true (some 7),
      DiscoveryOp.startContinuousScanning, DiscoveryOp.startContinuousScanning]).2 = 1 ∧
    NDIReceiver.startReceiving
        (NDIReceiver.run {} [ReceiverOp.init true, ReceiverOp.connect sourceA (some 1),
          ReceiverOp.startReceiving, ReceiverOp.startReceiving]).1 =
      ((NDIReceiver.run {} [ReceiverOp.init true, ReceiverOp.connect sourceA (some 1),
          ReceiverOp.startReceiving, ReceiverOp.startReceiving]).1, []) ∧
    NDIDiscovery.startContinuousScanning
        (NDIDiscovery.run false {} [DiscoveryOp.init true (some 7),
          DiscoveryOp.startContinuousScanning, DiscoveryOp.startContinuousScanning]).1 =
      ((NDIDiscovery.run false {} [DiscoveryOp.init true (some 7),
          DiscoveryOp.startContinuousScanning, DiscoveryOp.startContinuousScanning]).1, []) :=
  ⟨by decide, by decide,
    (at_most_one_worker [ReceiverOp.init true, ReceiverOp.connect sourceA (some 1),
        ReceiverOp.startReceiving, ReceiverOp.startReceiving] false
      [DiscoveryOp.init true (some 7), DiscoveryOp.startContinuousScanning,
        DiscoveryOp.startContinuousScanning]).2.2.2.2.2.2.1 rfl,
    (at_most_one_worker [ReceiverOp.init true, ReceiverOp.connect sourceA (some 1),
        ReceiverOp.startReceiving, ReceiverOp.startReceiving] false
      [DiscoveryOp.init true (some 7), DiscoveryOp.startContinuousScanning,
        DiscoveryOp.startContinuousScanning]).2.2.2.2.2.2.2 rfl⟩

/-- C15 does not hold on the code in the real build: `initialize()` has no test of
`is_initialized_`.  On the discovery already initialized with finder `7`, a second
`initialize()` for which the SDK succeeds and returns finder `8` calls `NDIlib_initialize` and
`NDIlib_find_create_v2` again and stores `8` over `7`; the following `cleanup()` destroys only
finder `8`, so of the two finders created one is never destroyed.  Whatever the state, a
successful real-build `initialize()` stores the newly created handle. -/
theorem reinitialize_replaces_finder :
    (discoveryInitialized.is_initialized_ = true ∧
      discoveryInitialized.finder_instance_ = some 7) ∧
    NDIDiscovery.initialize false discoveryInitialized true (some 8) =
      (true, { finder_instance_ := some 8, is_initialized_ := true, is_scanning_ := false,
               scan_thread_ := false },
        [ Event.NDIlib_initialize, Event.NDIlib_find_create_v2 true]) ∧
    (NDIDiscovery.run false {}
        [DiscoveryOp.init true (some 7), DiscoveryOp.init true (some 8), DiscoveryOp.cleanup]) =
      ({}, [ Event.NDIlib_initialize, Event.NDIlib_find_create_v2 true,
        Event.NDIlib_initialize, Event.NDIlib_find_create_v2 true,
        Event.NDIlib_find_destroy 8, Event.NDIlib_destroy]) ∧
    finderCreations (NDIDiscovery.run false {}
        [DiscoveryOp.init true (some 7), DiscoveryOp.init true (some 8),
          DiscoveryOp.cleanup]).2 = 2 ∧
    destroyedFinders (NDIDiscovery.run false {}
        [DiscoveryOp.init true (some 7), DiscoveryOp.init true (some 8),
          DiscoveryOp.cleanup]).2 = [8] ∧
    ∀ (d : NDIDiscovery) (h : Nat),
      NDIDiscovery.initialize false d true (some h) =
        (true, { d with finder_instance_ := some h, is_initialized_ := true },
          [ Event.NDIlib_initialize, Event.NDIlib_find_create_v2 true]) := by
  refine ⟨by decide, by decide, by decide, by decide, by decide, ?_⟩
  intro d h
  simp [ NDIDiscovery.initialize]

theorem reinitialize_mock (d : NDIDiscovery) (rt : Bool) (created : Option Nat)
    (hinit : d.is_initialized_ = true) :
    NDIDiscovery.initialize true d rt created = (true, d, []) := by
  obtain ⟨fi, init, scan, thr⟩ := d
  simp only at hinit
  subst hinit
  simp [ NDIDiscovery.initialize]

end ndi
